import Mathlib

/-!
# Verification of the Credit Intelligence Engine backend

Shallow embedding, in Lean 4, of the scoring, consent, rate-limiting,
GST/utility/UPI analytics and crypto-pipeline code of the backend, together
with proofs and refutations of the specified properties.

Numeric conventions: JavaScript numbers that only ever hold exact decimal
values in the verified paths are embedded as rationals; counters and epoch
times as integers.  `Math.round` is embedded for non-negative arguments
(the only arguments that occur in the verified paths).
-/

namespace JsMath

/-- Embedding of JavaScript `Math.round` for arguments `≥ -1/2`
(round half up). -/
def jsRound (q : ℚ) : ℤ := ⌊q + 1/2⌋

/-- `Math.round(x * 100) / 100` — round to 2 decimal places. -/
def round2 (q : ℚ) : ℚ := (jsRound (q * 100) : ℚ) / 100

/-- `Math.round(x * 10000) / 10000` — round to 4 decimal places. -/
def round4 (q : ℚ) : ℚ := (jsRound (q * 10000) : ℚ) / 10000

/-- Embedding of JavaScript `Math.ceil` on rationals. -/
def jsCeil (q : ℚ) : ℤ := ⌈q⌉

/-- Uppercasing of a JavaScript string (`String.prototype.toUpperCase`
restricted to ASCII, which is all the embedded code ever passes). -/
def jsToUpper (s : String) : String := String.mk (s.data.map Char.toUpper)

end JsMath

/-!
## ScoringEngine (`Backend/server.js`)

`ScoringEngine.calculate` combines ingested UPI/GST data and the validation
result into the NovaScore.
-/

namespace ScoringEngine

/-- The UPI slice of the ingested data used by the scoring engine. -/
structure UpiData where
  inflow_outflow_ratio : ℚ
deriving DecidableEq

/-- The GST slice of the ingested data used by the scoring engine. -/
structure GstData where
  variance_vs_bank : ℚ
deriving DecidableEq

/-- The ingested data fields read by `ScoringEngine.calculate`. -/
structure IngestedData where
  upi : UpiData
  gst : GstData
deriving DecidableEq

/-- The validation fields read by `ScoringEngine.calculate`. -/
structure ValidationData where
  nodeStrength : ℚ
deriving DecidableEq

def baseScore : ℤ := 750

/-- `(ingestedData.upi.inflow_outflow_ratio > 1.2) ? 40 : 10` -/
def cashFlowBonus (d : IngestedData) : ℤ :=
  if d.upi.inflow_outflow_ratio > 12/10 then 40 else 10

/-- `(validation.nodeStrength > 0.8) ? 30 : 0` -/
def stabilityBonus (v : ValidationData) : ℤ :=
  if v.nodeStrength > 8/10 then 30 else 0

/-- `(ingestedData.gst.variance_vs_bank > 0.15) ? -50 : 0` -/
def penalty (d : IngestedData) : ℤ :=
  if d.gst.variance_vs_bank > 15/100 then -50 else 0

def finalScore (d : IngestedData) (v : ValidationData) : ℤ :=
  baseScore + cashFlowBonus d + stabilityBonus v + penalty d

/-- The `score` field returned by `ScoringEngine.calculate`:
`Math.min(finalScore, 900)`. -/
def calculateScore (d : IngestedData) (v : ValidationData) : ℤ :=
  min (finalScore d v) 900

/-- The `tier` field returned by `ScoringEngine.calculate`. -/
def tier (s : ℤ) : String :=
  if s ≥ 750 then "Prime" else if s ≥ 650 then "Good" else "Sub-Prime"

end ScoringEngine

/-!
## Rate-limited identity store (`Backend/store/memoryStore.js`)

Per-identity failed-attempt records.  The store for a single hashed
identity is an `Option AttemptRecord` (`none` = record absent); `Date.now()`
is passed explicitly as an integer of epoch milliseconds.
-/

namespace MemoryStore

/-- `config.rateLimit.maxAttempts` (`Backend/config`). -/
def maxAttempts : ℕ := 3

/-- `config.rateLimit.lockoutDurationMs = 5 * 60 * 1000` (`Backend/config`). -/
def lockoutDurationMs : ℤ := 5 * 60 * 1000

/-- One entry of the `attempts` map: `{ count, lockedUntil }` with
`lockedUntil: number | null`. -/
structure AttemptRecord where
  count : ℕ
  lockedUntil : Option ℤ
deriving DecidableEq

/-- `isLocked(hashedAadhaar)`: returns the boolean answer and the updated
record (the expired-lock branch deletes the record).  The `!record.lockedUntil`
truthiness test treats both `null` and `0` as falsy. -/
def isLocked (rec : Option AttemptRecord) (now : ℤ) : Bool × Option AttemptRecord :=
  match rec with
  | none => (false, none)
  | some r =>
    match r.lockedUntil with
    | none => (false, some r)
    | some lu =>
      if lu = 0 then (false, some r)
      else if now < lu then (true, some r)
      else (false, none)

/-- `getLockoutRemaining(hashedAadhaar)`: remaining lockout seconds,
`Math.ceil(remaining / 1000)` when positive, else `0`. -/
def getLockoutRemaining (rec : Option AttemptRecord) (now : ℤ) : ℤ :=
  match rec with
  | none => 0
  | some r =>
    match r.lockedUntil with
    | none => 0
    | some lu =>
      if lu = 0 then 0
      else
        let remaining := lu - now
        if remaining > 0 then JsMath.jsCeil ((remaining : ℚ) / 1000) else 0

/-- `incrementFailed(hashedAadhaar)`: returns the updated record together
with the `{ locked, attemptsLeft }` result. -/
def incrementFailed (rec : Option AttemptRecord) (now : ℤ) :
    Option AttemptRecord × Bool × ℤ :=
  let r0 := rec.getD ⟨0, none⟩
  let c := r0.count + 1
  if c ≥ maxAttempts then
    (some ⟨c, some (now + lockoutDurationMs)⟩, true, 0)
  else
    (some ⟨c, r0.lockedUntil⟩, false, (maxAttempts : ℤ) - c)

/-- `resetAttempts(hashedAadhaar)`: deletes the record. -/
def resetAttempts (_rec : Option AttemptRecord) : Option AttemptRecord := none

/-- Runs `incrementFailed` once per listed timestamp, threading the record. -/
def runFailed (rec : Option AttemptRecord) : List ℤ → Option AttemptRecord
  | [] => rec
  | t :: ts => runFailed (incrementFailed rec t).1 ts

end MemoryStore

/-!
## GST filing compliance (`Backend/utils/gstComplianceCalculator.js`)

`new Date(y, m, d, hh, mm, ss)` values are embedded as civil date-times in
the proleptic Gregorian calendar (the calendar JavaScript `Date` uses);
`epochSec` is a strictly monotone day/second count, so date comparisons and
differences agree with the millisecond arithmetic of the source (the source
always works in one fixed local timezone).  A filing record carries its
`filingPeriod` already split into `(year, month)` (the source splits the
`'YYYY-MM'` string) and its `filingDate` already parsed (`none` for an
invalid date).
-/

namespace Gst

def isLeap (y : ℕ) : Bool := (y % 4 = 0 && y % 100 ≠ 0) || y % 400 = 0

def daysInMonth (y m : ℕ) : ℕ :=
  if m = 2 then (if isLeap y then 29 else 28)
  else if m = 4 ∨ m = 6 ∨ m = 9 ∨ m = 11 then 30 else 31

/-- Days in months `1, …, m-1` of year `y`. -/
def daysBeforeMonth (y : ℕ) : ℕ → ℕ
  | 0 => 0
  | 1 => 0
  | m + 2 => daysBeforeMonth y (m + 1) + daysInMonth y (m + 1)

/-- Day count of the civil date `(y, m, d)` from a fixed origin. -/
def epochDay (y m d : ℕ) : ℕ :=
  365 * (y - 1) + (y - 1) / 4 - (y - 1) / 100 + (y - 1) / 400
    + daysBeforeMonth y m + d

/-- A parsed JavaScript `Date` (local civil time). -/
structure DateTime where
  year : ℕ
  month : ℕ
  day : ℕ
  hour : ℕ
  minute : ℕ
  second : ℕ
deriving DecidableEq

/-- Second count of a civil date-time; comparisons and differences of
`Date` values in the source are comparisons and differences of this. -/
def epochSec (t : DateTime) : ℤ :=
  (epochDay t.year t.month t.day : ℤ) * 86400
    + t.hour * 3600 + t.minute * 60 + t.second

/-- `DUE_DAY[returnType] || 20`. -/
def dueDay (returnType : String) : ℕ :=
  if returnType = "GSTR-1" then 11 else 20

/-- The `dueMonth > 12` rollover of `computeDueDate`. -/
def nextMonth (py pm : ℕ) : ℕ × ℕ :=
  if pm + 1 > 12 then (py + 1, 1) else (py, pm + 1)

/-- `computeDueDate(returnType, filingPeriod)`: day `DUE_DAY[returnType]`
of the month after the filing period, at `23:59:59`. -/
def computeDueDate (returnType : String) (py pm : ℕ) : DateTime :=
  let p := nextMonth py pm
  ⟨p.1, p.2, dueDay returnType, 23, 59, 59⟩

/-- A GST filing record (the fields `classifyFiling` reads). -/
structure Filing where
  returnType : Option String
  filingPeriod : Option (ℕ × ℕ)
  filingDate : Option DateTime
deriving DecidableEq

/-- `classifyFiling(filing)`. -/
def classifyFiling (f : Filing) : String :=
  let rt := JsMath.jsToUpper (f.returnType.getD "GSTR-3B")
  match f.filingPeriod, f.filingDate with
  | some p, some fd =>
    if epochSec fd ≤ epochSec (computeDueDate rt p.1 p.2)
    then "ON_TIME" else "DELAYED"
  | _, _ => "DELAYED"

/-- `computeDelayDays(dueDate, filedDate)`:
`Math.max(0, Math.ceil(diffMs / 86_400_000))`, in seconds here. -/
def computeDelayDays (due filed : DateTime) : ℤ :=
  max 0 (JsMath.jsCeil (((epochSec filed - epochSec due : ℤ) : ℚ) / 86400))

end Gst

/-!
## Utility bill reliability (`Backend/utils/reliabilityCalculator.js`,
severity-weighted variant)

Bill date fields are embedded post-parsing: `missing` for a falsy field,
`invalid` for an unparseable date string, `valid ms` for a parsed epoch
millisecond value.
-/

namespace Reliability

/-- A parsed bill date field. -/
inductive DateVal where
  | missing
  | invalid
  | valid (ms : ℤ)
deriving DecidableEq

/-- A utility bill record (the fields the calculator reads). -/
structure Bill where
  billerName : String
  billCategory : String
  billAmount : ℚ
  dueDate : DateVal
  paymentDate : DateVal
  paymentStatus : String
deriving DecidableEq

/-- `computeDelayDays(dueDate, paymentDate)`:
`Math.max(0, Math.ceil(diffMs / 86_400_000))`, `0` on invalid dates. -/
def computeDelayDays (due paid : DateVal) : ℤ :=
  match due, paid with
  | .valid d, .valid p => max 0 (JsMath.jsCeil (((p - d : ℤ) : ℚ) / 86400000))
  | _, _ => 0

/-- `classifyPayment(bill)` (severity variant): UNPAID on missing payment or
UNPAID status; MAJOR_DELAY on invalid dates; ON_TIME iff `paid ≤ due`;
otherwise MINOR_DELAY for delays of at most 5 days, else MAJOR_DELAY. -/
def classifyPayment (b : Bill) : String :=
  if b.paymentDate = DateVal.missing ∨ JsMath.jsToUpper b.paymentStatus = "UNPAID"
  then "UNPAID"
  else
    match b.dueDate, b.paymentDate with
    | .valid due, .valid paid =>
      if paid ≤ due then "ON_TIME"
      else if computeDelayDays b.dueDate b.paymentDate ≤ 5
        then "MINOR_DELAY" else "MAJOR_DELAY"
    | _, _ => "MAJOR_DELAY"

/-- The per-bill weighted score: 10 / 6 / 2 / 0. -/
def billScore (status : String) : ℕ :=
  if status = "ON_TIME" then 10
  else if status = "MINOR_DELAY" then 6
  else if status = "MAJOR_DELAY" then 2
  else 0

/-- One entry of the `classified` array built by `calculateReliability`. -/
structure ClassifiedBill where
  billerName : String
  billCategory : String
  billAmount : ℚ
  dueDate : DateVal
  paymentDate : DateVal
  originalStatus : String
  classification : String
  delayDays : ℤ
  score : ℕ
deriving DecidableEq

/-- Builds the classified entry for one bill. -/
def classifyBill (b : Bill) : ClassifiedBill :=
  let status := classifyPayment b
  { billerName := b.billerName
    billCategory := b.billCategory
    billAmount := b.billAmount
    dueDate := b.dueDate
    paymentDate := b.paymentDate
    originalStatus := b.paymentStatus
    classification := status
    delayDays :=
      if status = "MINOR_DELAY" ∨ status = "MAJOR_DELAY"
      then computeDelayDays b.dueDate b.paymentDate else 0
    score := billScore status }

/-- Stable insertion of `x` after all kept elements `y` with `le y x`. -/
def insertSorted (le : α → α → Bool) (x : α) : List α → List α
  | [] => [x]
  | y :: ys => if le y x then y :: insertSorted le x ys else x :: y :: ys

/-- Embedding of `Array.prototype.sort` with a numeric key comparator
(stable, ascending — stability is guaranteed by ES2019). -/
def stableSortBy (le : α → α → Bool) (l : List α) : List α :=
  l.foldl (fun acc x => insertSorted le x acc) []

/-- The sort key `new Date(bill.dueDate)` of the due-date sort. -/
def dueKey (d : DateVal) : ℤ :=
  match d with
  | .valid ms => ms
  | _ => 0

/-- `detectTrend(classified)`: mean score of the last 3 bills against the
overall mean. -/
def detectTrend (classified : List ClassifiedBill) : String :=
  if classified.length < 4 then "STABLE"
  else
    let overallAvg : ℚ :=
      ((classified.map fun b => (b.score : ℚ)).sum) / classified.length
    let last3 := classified.drop (classified.length - 3)
    let last3Avg : ℚ := ((last3.map fun b => (b.score : ℚ)).sum) / 3
    let diff := last3Avg - overallAvg
    if diff > 1 then "IMPROVING"
    else if diff < -1 then "DECLINING"
    else "STABLE"

/-- The fields of the object returned by `calculateReliability`
(the per-category breakdown is not needed by any claim). -/
structure ReliabilityResult where
  totalBills : ℕ
  onTimePayments : ℕ
  minorDelays : ℕ
  majorDelays : ℕ
  unpaidBills : ℕ
  paymentSuccessRate : ℚ
  reliabilityScore : ℚ
  consistencyScore : ℤ
  trend : String
  bills : List ClassifiedBill
deriving DecidableEq

/-- The `emptyResult()` of the severity-weighted calculator. -/
def emptyResult : ReliabilityResult :=
  { totalBills := 0, onTimePayments := 0, minorDelays := 0, majorDelays := 0
    unpaidBills := 0, paymentSuccessRate := 0, reliabilityScore := 0
    consistencyScore := 0, trend := "NONE", bills := [] }

/-- `calculateReliability(bills)` (severity-weighted variant). -/
def calculateReliability (bills : List Bill) : ReliabilityResult :=
  if bills = [] then emptyResult
  else
    let sortedBills :=
      stableSortBy (fun a b => decide (dueKey a.dueDate ≤ dueKey b.dueDate)) bills
    let classified := sortedBills.map classifyBill
    let onTimePayments :=
      (classified.filter fun c => c.classification = "ON_TIME").length
    let minorDelays :=
      (classified.filter fun c => c.classification = "MINOR_DELAY").length
    let majorDelays :=
      (classified.filter fun c => c.classification = "MAJOR_DELAY").length
    let unpaidBills :=
      (classified.filter fun c => c.classification ≠ "ON_TIME" ∧
        c.classification ≠ "MINOR_DELAY" ∧ c.classification ≠ "MAJOR_DELAY").length
    let totalWeight : ℚ := 10 * classified.length
    let earnedWeight : ℚ := ((classified.map fun c => (c.score : ℚ)).sum)
    let totalBills := bills.length
    let paymentSuccessRate : ℚ :=
      if totalBills > 0 then JsMath.round4 ((onTimePayments : ℚ) / totalBills) else 0
    let reliabilityScore : ℚ :=
      if totalWeight > 0 then JsMath.round2 (earnedWeight / totalWeight * 100) else 0
    let consistency : ℚ :=
      if totalBills > 0 then (onTimePayments : ℚ) / totalBills else 0
    { totalBills := totalBills
      onTimePayments := onTimePayments
      minorDelays := minorDelays
      majorDelays := majorDelays
      unpaidBills := unpaidBills
      paymentSuccessRate := paymentSuccessRate
      reliabilityScore := reliabilityScore
      consistencyScore := JsMath.jsRound (consistency * 100)
      trend := detectTrend classified
      bills := classified }

/-- The four bills of scenario E6: one ON_TIME, one 3-day delay, one 10-day
delay, one unpaid, in chronological due-date order. -/
def e6Bills : List Bill :=
  [ ⟨"BESCOM", "ELECTRICITY", 1200, .valid 0, .valid 0, "PAID"⟩,
    ⟨"BWSSB", "WATER", 500, .valid 1000000000, .valid 1259200000, "PAID"⟩,
    ⟨"ACT", "BROADBAND", 800, .valid 2000000000, .valid 2864000000, "PAID"⟩,
    ⟨"BESCOM", "ELECTRICITY", 1300, .valid 3000000000, .missing, "UNPAID"⟩ ]

end Reliability

/-!
## UPI analytics (`Backend/utils/upiAnalytics.js`)

Transactions are embedded with the fields `analyzeUpi` reads.  MCC
inference embeds the `MCC_MAP` regular expressions as case-insensitive
substring tests (`\b` as a right word boundary), which is exactly their
semantics over the narration strings involved.
-/

namespace Upi

/-- A normalised transaction (the fields the UPI analytics engine reads). -/
structure Txn where
  mode : String
  amount : ℚ
  narration : String
  mcc : Option String
  merchantCategoryCode : Option String
  category : Option String
deriving DecidableEq

def lowerChars (s : String) : List Char := s.data.map Char.toLower

/-- Contiguous-subsequence search over characters. -/
def containsSeq (needle : List Char) : List Char → Bool
  | [] => needle.isEmpty
  | c :: t => needle.isPrefixOf (c :: t) || containsSeq needle t

/-- Case-insensitive substring test (`/pat/i.test(hay)` for a literal
alternative `pat`). -/
def containsCI (hay pat : String) : Bool :=
  containsSeq (lowerChars pat) (lowerChars hay)

def isWordChar (c : Char) : Bool := c.isAlphanum || c = '_'

/-- `needle` is a prefix of `hay` and is followed by a word boundary. -/
def prefixThenBoundary (needle hay : List Char) : Bool :=
  match needle, hay with
  | [], [] => true
  | [], c :: _ => !isWordChar c
  | _ :: _, [] => false
  | n :: ns, c :: cs => n = c && prefixThenBoundary ns cs

def containsSeqWB (needle : List Char) : List Char → Bool
  | [] => prefixThenBoundary needle []
  | c :: t => prefixThenBoundary needle (c :: t) || containsSeqWB needle t

/-- Case-insensitive substring test with a right word boundary
(`/pat\b/i.test(hay)`). -/
def containsWordEndCI (hay pat : String) : Bool :=
  containsSeqWB (lowerChars pat) (lowerChars hay)

/-- `inferMcc(narration)`: first matching entry of `MCC_MAP`, in order. -/
def inferMcc (narration : String) : String × String :=
  if narration = "" then ("0000", "Uncategorised")
  else
    let h := narration
    if containsCI h "salary" || containsCI h "payroll" || containsCI h "wages"
      then ("6012", "Salary / Payroll")
    else if containsCI h "rent" || containsCI h "housing" || containsCI h "apartment"
      then ("6513", "Rent / Housing")
    else if containsCI h "electric" || containsCI h "power" || containsCI h "utility"
        || containsCI h "gas" || containsCI h "water"
      then ("4900", "Utilities")
    else if containsCI h "grocer" || containsCI h "supermarket"
        || containsCI h "bigbasket" || containsCI h "blinkit"
      then ("5411", "Groceries")
    else if containsCI h "fuel" || containsCI h "petrol" || containsCI h "diesel"
        || containsCI h "iocl" || containsCI h "bpcl" || containsCI h "hpcl"
      then ("5541", "Fuel")
    else if containsCI h "recharge" || containsCI h "mobile" || containsCI h "airtel"
        || containsCI h "jio" || containsWordEndCI h "vi"
      then ("4812", "Telecom")
    else if containsCI h "insurance" || containsWordEndCI h "lic"
        || containsWordEndCI h "emi" || containsCI h "premium"
      then ("6300", "Insurance")
    else if containsCI h "hospital" || containsCI h "medical"
        || containsCI h "pharma" || containsCI h "apollo"
      then ("8062", "Healthcare")
    else if containsCI h "shop" || containsCI h "amazon" || containsCI h "flipkart"
        || containsCI h "myntra" || containsCI h "mall"
      then ("5311", "Shopping")
    else if containsCI h "food" || containsCI h "swiggy" || containsCI h "zomato"
        || containsCI h "restaurant" || containsCI h "cafe"
      then ("5812", "Food & Dining")
    else if containsCI h "uber" || containsCI h "ola" || containsCI h "cab"
        || containsCI h "ride" || containsCI h "metro" || containsCI h "bus"
        || containsCI h "train"
      then ("4121", "Transport")
    else if containsCI h "freelance" || containsCI h "client"
        || containsCI h "consult" || containsCI h "project"
      then ("7392", "Professional Services")
    else if containsCI h "bonus" || containsCI h "incentive" || containsCI h "reward"
      then ("6012", "Income / Bonus")
    else if containsCI h "loan" || containsCI h "emi" || containsCI h "repay"
      then ("6010", "Loan / EMI")
    else if containsCI h "invest" || containsCI h "mutual" || containsCI h "sip"
        || containsCI h "stock" || containsCI h "demat"
      then ("6211", "Investments")
    else ("0000", "Uncategorised")

/-- `filterUpiTransactions(transactions)`: keep `mode` equal to `'UPI'`
case-insensitively. -/
def filterUpiTransactions (txns : List Txn) : List Txn :=
  txns.filter fun t => JsMath.jsToUpper t.mode = "UPI"

/-- `calculateTotalVolume(upiTxns)`. -/
def calculateTotalVolume (upiTxns : List Txn) : ℚ :=
  JsMath.round2 ((upiTxns.map fun t => t.amount).sum)

/-- One value of the `mccSet` map of `extractUniqueMccs`. -/
structure MccEntry where
  mcc : String
  category : String
  count : ℕ
  volume : ℚ
deriving DecidableEq

/-- Insertion-ordered update of the `mccSet` map for one transaction. -/
def upsertMcc (l : List MccEntry) (mcc category : String) (amount : ℚ) :
    List MccEntry :=
  match l with
  | [] => [⟨mcc, category, 1, JsMath.round2 (0 + amount)⟩]
  | e :: rest =>
    if e.mcc = mcc then
      ⟨e.mcc, e.category, e.count + 1, JsMath.round2 (e.volume + amount)⟩ :: rest
    else e :: upsertMcc rest mcc category amount

/-- The `mccSet` map of `extractUniqueMccs`, in insertion order. -/
def mccFold (txns : List Txn) : List MccEntry :=
  txns.foldl (fun acc t =>
    let rawMcc := match t.mcc with
      | some m => some m
      | none => t.merchantCategoryCode
    let p := match rawMcc with
      | some m => (m, t.category.getD "Unknown")
      | none => inferMcc t.narration
    upsertMcc acc p.1 p.2 t.amount) []

/-- `mccDetails` of `extractUniqueMccs`: entries sorted by volume,
descending. -/
def mccDetails (txns : List Txn) : List MccEntry :=
  Reliability.stableSortBy (fun a b => decide (b.volume ≤ a.volume)) (mccFold txns)

/-- `uniqueMccs` of `extractUniqueMccs`. -/
def uniqueMccs (txns : List Txn) : List String :=
  (mccDetails txns).map (fun e => e.mcc)

/-- `transactionCount` of `analyzeUpi`. -/
def transactionCount (txns : List Txn) : ℕ := (filterUpiTransactions txns).length

/-- `totalVolume` of `analyzeUpi`. -/
def totalVolume (txns : List Txn) : ℚ :=
  calculateTotalVolume (filterUpiTransactions txns)

/-- `calculateMerchantDiversity(mccDetails, totalCount)`: normalised
Shannon entropy across MCC categories, rounded to 3 decimals. -/
noncomputable def calculateMerchantDiversity
    (details : List MccEntry) (totalCount : ℕ) : ℝ :=
  if details.length ≤ 1 ∨ totalCount = 0 then 0
  else
    let entropy : ℝ := ((details.map fun e =>
      let p : ℝ := (e.count : ℝ) / totalCount
      if 0 < p then -(p * Real.log p) else 0).sum)
    let maxEntropy : ℝ := Real.log (details.length : ℝ)
    let score := if 0 < maxEntropy then entropy / maxEntropy else 0
    (⌊score * 1000 + 1/2⌋ : ℝ) / 1000

/-- `merchantDiversityScore` of `analyzeUpi`. -/
noncomputable def merchantDiversityScore (txns : List Txn) : ℝ :=
  calculateMerchantDiversity (mccDetails (filterUpiTransactions txns))
    (filterUpiTransactions txns).length

/-- The E4 input: three UPI debits (rent 10000, groceries 1200,
salary-credit 50000) and one NEFT debit (rent 20000). -/
def e4Txns : List Txn :=
  [ ⟨"UPI", 10000, "rent", none, none, none⟩,
    ⟨"UPI", 1200, "groceries", none, none, none⟩,
    ⟨"UPI", 50000, "salary-credit", none, none, none⟩,
    ⟨"NEFT", 20000, "rent", none, none, none⟩ ]

end Upi

/-!
## Consent store (`Backend/services/consentService.js`,
`Backend/controllers/consentController.js`)

The in-memory fallback path of the consent service (the PostgreSQL path has
identical semantics by design).  JavaScript runtime-typed payload fields are
embedded as small sum types; date strings arrive pre-parsed (`valid ms`
or `invalid`), mirroring `new Date(...)` plus the `isNaN` test.
-/

namespace Consent

/-- A payload field that should hold a string. -/
inductive StrVal where
  | absent
  | str (s : String)
  | nonString
deriving DecidableEq

/-- A payload field that should hold a number. -/
inductive NumVal where
  | absent
  | num (q : ℚ)
  | nonNumber
deriving DecidableEq

/-- A date string after `new Date(...)`: parses to an instant or not. -/
inductive DateStr where
  | valid (ms : ℤ)
  | invalid
deriving DecidableEq

/-- The `dataRange` object (`from`/`to` fields; `none` = field falsy). -/
structure DataRange where
  fromDate : Option DateStr
  toDate : Option DateStr
deriving DecidableEq

/-- The `dataLife` object. -/
structure DataLife where
  unit : StrVal
  value : NumVal
deriving DecidableEq

/-- A `consent.create` request payload (`none` = field absent or not an
object/array). -/
structure Payload where
  userReferenceId : StrVal
  fiTypes : Option (List String)
  dataRange : Option DataRange
  dataLife : Option DataLife
deriving DecidableEq

def VALID_FI_TYPES : List String := ["DEPOSIT", "UPI", "GST", "UTILITY", "SOCIAL"]

def VALID_DATA_LIFE_UNITS : List String := ["MONTH", "YEAR", "DAY", "INF"]

/-- `validateConsentPayload(payload)`: the accumulated `errors` array
(the payload is valid iff it is empty). -/
def validateConsentPayload (p : Payload) : List String :=
  (match p.userReferenceId with
   | .str s =>
     if s = "" then ["userReferenceId is required and must be a string."] else []
   | _ => ["userReferenceId is required and must be a string."]) ++
  (match p.fiTypes with
   | none => ["fiTypes is required and must be a non-empty array."]
   | some l =>
     if l.isEmpty then ["fiTypes is required and must be a non-empty array."]
     else if (l.filter fun t => !VALID_FI_TYPES.contains t).isEmpty then []
     else ["Invalid fiTypes."]) ++
  (match p.dataRange with
   | none => ["dataRange is required and must be an object with from, to."]
   | some r =>
     (if r.fromDate = none then ["dataRange.from is required (ISO 8601 date)."]
      else []) ++
     (if r.toDate = none then ["dataRange.to is required (ISO 8601 date)."]
      else []) ++
     (match r.fromDate, r.toDate with
      | some f, some t =>
        (if f = DateStr.invalid then ["dataRange.from is not a valid date."]
         else []) ++
        (if t = DateStr.invalid then ["dataRange.to is not a valid date."]
         else []) ++
        (match f, t with
         | .valid a, .valid b =>
           if a ≥ b then ["dataRange.from must be before dataRange.to."] else []
         | _, _ => [])
      | _, _ => [])) ++
  (match p.dataLife with
   | none => ["dataLife is required and must be an object with unit, value."]
   | some dl =>
     (match dl.unit with
      | .str u =>
        if u = "" ∨ ¬ VALID_DATA_LIFE_UNITS.contains u
        then ["dataLife.unit must be one of MONTH, YEAR, DAY, INF."] else []
      | _ => ["dataLife.unit must be one of MONTH, YEAR, DAY, INF."]) ++
     (match dl.value with
      | .num q =>
        if q < 0
        then ["dataLife.value is required and must be a non-negative number."]
        else []
      | _ => ["dataLife.value is required and must be a non-negative number."]))

/-- A stored consent record (the fields the lifecycle touches). -/
structure ConsentRecord where
  consentId : String
  userReferenceId : StrVal
  status : String
  fiTypes : List String
  dataRange : Option DataRange
  dataLife : Option DataLife
  createdAt : String
  revokedAt : Option String
deriving DecidableEq

/-- The result of `createConsent`. -/
inductive CreateResult where
  | failure (message : String) (errors : List String)
  | created (consentId : String) (status : String) (createdAt : String)
deriving DecidableEq

/-- `createConsent(payload)` on the in-memory store; `consentId` and `now`
stand for `generateConsentId()` and `new Date().toISOString()`. -/
def createConsent (p : Payload) (consentId now : String)
    (store : List ConsentRecord) : CreateResult × List ConsentRecord :=
  let errors := validateConsentPayload p
  if errors = [] then
    let record : ConsentRecord :=
      ⟨consentId, p.userReferenceId, "ACTIVE", p.fiTypes.getD [],
       p.dataRange, p.dataLife, now, none⟩
    (CreateResult.created consentId "ACTIVE" now, store ++ [record])
  else
    (CreateResult.failure "Validation failed." errors, store)

def isHexDigit (c : Char) : Bool :=
  c.isDigit || ('a' ≤ c && c ≤ 'f') || ('A' ≤ c && c ≤ 'F')

/-- Modelled from the spec: the `uuid` package's `validate` (the package is
not part of the source tree; the spec requires a syntactically valid UUIDv4
for all queries by id): 8-4-4-4-12 hex digits with version nibble `4` and
variant nibble in `89ab`. -/
def isValidUuid (id : String) : Bool :=
  let cs := id.data
  cs.length = 36 &&
  (List.range 36).all fun i =>
    let c := cs.getD i ' '
    if i = 8 ∨ i = 13 ∨ i = 18 ∨ i = 23 then c = '-'
    else if i = 14 then c = '4'
    else if i = 19 then
      c = '8' ∨ c = '9' ∨ c = 'a' ∨ c = 'b' ∨ c = 'A' ∨ c = 'B'
    else isHexDigit c

/-- The `findIndex`-and-update step of `revokeConsent`: rewrites the first
record with the given id and status ACTIVE, returning the updated store and
record, or `none` when no such record exists. -/
def revokeInStore (store : List ConsentRecord) (id now : String) :
    Option (List ConsentRecord × ConsentRecord) :=
  match store with
  | [] => none
  | c :: rest =>
    if c.consentId = id ∧ c.status = "ACTIVE" then
      let c2 := { c with status := "REVOKED", revokedAt := some now }
      some (c2 :: rest, c2)
    else
      match revokeInStore rest id now with
      | none => none
      | some (rest2, r) => some (c :: rest2, r)

/-- The result of `revokeConsent`. -/
inductive RevokeResult where
  | failure (message : String)
  | revoked (record : ConsentRecord)
deriving DecidableEq

def RevokeResult.success : RevokeResult → Bool
  | .failure _ => false
  | .revoked _ => true

/-- `revokeConsent(consentId)` on the in-memory store. -/
def revokeConsent (store : List ConsentRecord) (id now : String) :
    RevokeResult × List ConsentRecord :=
  if ¬ isValidUuid id then (.failure "Invalid consentId format.", store)
  else
    match revokeInStore store id now with
    | none => (.failure "Active consent artefact not found.", store)
    | some (s2, r) => (.revoked r, s2)

/-- `handleRevoke`: HTTP status mapping (`result.success ? 200 : 404`). -/
def handleRevokeStatus (r : RevokeResult) : ℕ :=
  if r.success then 200 else 404

/-- The store mutations of the consent service. -/
inductive Op where
  | create (p : Payload) (consentId now : String)
  | revoke (id now : String)

/-- One consent-store mutation. -/
def step (store : List ConsentRecord) : Op → List ConsentRecord
  | .create p cid now => (createConsent p cid now store).2
  | .revoke id now => (revokeConsent store id now).2

/-- All states reachable from the empty store. -/
def runOps (ops : List Op) : List ConsentRecord := ops.foldl step []

/-- An E3-style payload whose `fiTypes` is `["TERM_DEPOSIT"]` and whose
other fields are unimpeachable. -/
def termDepositPayload : Payload :=
  ⟨.str "u1", some ["TERM_DEPOSIT"],
   some ⟨some (.valid 0), some (.valid 31536000000)⟩,
   some ⟨.str "MONTH", .num 6⟩⟩

end Consent

/-!
## Social score calculator (`Backend/utils/socialScoreCalculator.js`)

JavaScript runtime values reaching the metric positions are embedded as
`JVal`: a number, `NaN`, or a (truthy) non-number value; a falsy non-number
(`''`, `false`) behaves in every guard exactly like an absent field, so it
is embedded as the absent `Option` case.  `x / 6` on a non-number is
embedded as `NaN` (a numeric-string operand would divide to a number, but
`normalize` sends both to `0`).  Account-creation fields carry the result
of `new Date(...)`: absent/falsy, unparseable, or an epoch instant.
-/

namespace Social

/-- A JavaScript value in a number-typed position. -/
inductive JVal where
  | num (q : ℚ)
  | nan
  | nonNumeric
deriving DecidableEq

def truthy : JVal → Bool
  | .num q => q ≠ 0
  | .nan => false
  | .nonNumeric => true

def jsTruthyOpt : Option JVal → Bool
  | none => false
  | some v => truthy v

/-- `x || 0`. -/
def jsOrZero : Option JVal → JVal
  | none => .num 0
  | some v => if truthy v then v else .num 0

/-- JavaScript `+` restricted to the values above (`number + non-number`
concatenates to a string, hence `nonNumeric`). -/
def jsAdd : JVal → JVal → JVal
  | .num a, .num b => .num (a + b)
  | .nonNumeric, _ => .nonNumeric
  | _, .nonNumeric => .nonNumeric
  | _, _ => .nan

/-- JavaScript `x / d` for a non-zero number literal `d`. -/
def jsDiv (v : JVal) (d : ℚ) : JVal :=
  match v with
  | .num a => .num (a / d)
  | _ => .nan

/-- LinkedIn metadata fields read by `computeMetrics`. -/
structure LinkedinData where
  connectionCount : Option JVal
  postsLast6Months : Option JVal
  accountCreatedAt : Option (Option ℤ)
deriving DecidableEq

/-- Twitter/X metadata fields read by `computeMetrics`. -/
structure TwitterData where
  followerCount : Option JVal
  tweetsLast6Months : Option JVal
  avgLikes : Option JVal
  avgReplies : Option JVal
  accountCreatedAt : Option (Option ℤ)
deriving DecidableEq

/-- Instagram metadata fields read by `computeMetrics`. -/
structure InstagramData where
  followerCount : Option JVal
  postsLast6Months : Option JVal
  avgLikes : Option JVal
  accountCreatedAt : Option (Option ℤ)
deriving DecidableEq

/-- YouTube metadata fields read by `computeMetrics`. -/
structure YoutubeData where
  subscriberCount : Option JVal
  videosLast6Months : Option JVal
  avgViews : Option JVal
  channelCreatedAt : Option (Option ℤ)
deriving DecidableEq

/-- The `platformData` argument of `calculateSocialScore`. -/
structure PlatformData where
  linkedin : Option LinkedinData
  twitter : Option TwitterData
  instagram : Option InstagramData
  youtube : Option YoutubeData
deriving DecidableEq

/-- `created < oldestAccountDate` update (an invalid date compares false). -/
def foldDate (acc : ℤ) (d : Option (Option ℤ)) : ℤ :=
  match d with
  | some (some ms) => if ms < acc then ms else acc
  | _ => acc

/-- The metrics object built by `computeMetrics`. -/
structure Metrics where
  networkSize : JVal
  postFrequency : JVal
  accountAgeDays : ℤ
  interactionRate : JVal
  platformCount : ℕ
deriving DecidableEq

/-- `computeMetrics(platformData)`; `now` is `new Date()`. -/
def computeMetrics (pd : PlatformData) (now : ℤ) : Metrics :=
  let li := pd.linkedin
  let st1 :=
    match li with
    | none => ((JVal.num 0), (JVal.num 0), now, (0 : ℕ))
    | some li =>
      (jsAdd (.num 0) (jsOrZero li.connectionCount),
       jsAdd (.num 0) (jsOrZero li.postsLast6Months),
       foldDate now li.accountCreatedAt, 1)
  let st2 :=
    match pd.twitter with
    | none => (st1.1, st1.2.1, (JVal.num 0), (JVal.num 0), st1.2.2.1, st1.2.2.2)
    | some tw =>
      (jsAdd st1.1 (jsOrZero tw.followerCount),
       jsAdd st1.2.1 (jsOrZero tw.tweetsLast6Months),
       (if jsTruthyOpt tw.avgLikes
        then jsAdd (.num 0) (tw.avgLikes.getD (.num 0)) else .num 0),
       (if jsTruthyOpt tw.avgReplies
        then jsAdd (.num 0) (tw.avgReplies.getD (.num 0)) else .num 0),
       foldDate st1.2.2.1 tw.accountCreatedAt, st1.2.2.2 + 1)
  let st3 :=
    match pd.instagram with
    | none => (st2.1, st2.2.1, st2.2.2.1, st2.2.2.2.1, st2.2.2.2.2.1,
        st2.2.2.2.2.2)
    | some ig =>
      (jsAdd st2.1 (jsOrZero ig.followerCount),
       jsAdd st2.2.1 (jsOrZero ig.postsLast6Months),
       (if jsTruthyOpt ig.avgLikes
        then jsAdd st2.2.2.1 (ig.avgLikes.getD (.num 0)) else st2.2.2.1),
       st2.2.2.2.1,
       foldDate st2.2.2.2.2.1 ig.accountCreatedAt, st2.2.2.2.2.2 + 1)
  let st4 :=
    match pd.youtube with
    | none => (st3.1, st3.2.1, st3.2.2.1, st3.2.2.2.1, (JVal.num 0),
        st3.2.2.2.2.1, st3.2.2.2.2.2)
    | some yt =>
      (jsAdd st3.1 (jsOrZero yt.subscriberCount),
       jsAdd st3.2.1 (jsOrZero yt.videosLast6Months),
       st3.2.2.1, st3.2.2.2.1,
       (if jsTruthyOpt yt.avgViews
        then jsAdd (.num 0) (yt.avgViews.getD (.num 0)) else .num 0),
       foldDate st3.2.2.2.2.1 yt.channelCreatedAt, st3.2.2.2.2.2 + 1)
  { networkSize := st4.1
    postFrequency := jsDiv st4.2.1 6
    accountAgeDays :=
      max 0 ⌊((now - st4.2.2.2.2.2.1 : ℤ) : ℚ) / 86400000⌋
    interactionRate := jsAdd (jsAdd st4.2.2.1 st4.2.2.2.1) st4.2.2.2.2.1
    platformCount := st4.2.2.2.2.2.2 }

/-- `normalize(value, min, max)`: `0` for non-numbers and `NaN`, else the
clamped affine map onto `[0, 1]`. -/
def normalize (v : JVal) (lo hi : ℚ) : ℚ :=
  match v with
  | .num q =>
    if hi ≤ lo then 0
    else (min (max q lo) hi - lo) / (hi - lo)
  | _ => 0

/-- The fields of the object returned by `calculateSocialScore`. -/
structure SocialScoreResult where
  socialScore : ℚ
  nNetworkSize : ℚ
  nPostFrequency : ℚ
  nAccountAge : ℚ
  nInteractionRate : ℚ
deriving DecidableEq

/-- `calculateSocialScore(platformData)`: the 0.25-weighted sum of the four
normalised metrics, rounded to 4 decimals. -/
def calculateSocialScore (pd : PlatformData) (now : ℤ) : SocialScoreResult :=
  let m := computeMetrics pd now
  let nNet := normalize m.networkSize 0 50000
  let nPost := normalize m.postFrequency 0 30
  let nAge := normalize (.num (m.accountAgeDays : ℚ)) 0 3650
  let nInt := normalize m.interactionRate 0 1000
  let socialScore :=
    (25/100) * nNet + (25/100) * nPost + (25/100) * nAge + (25/100) * nInt
  ⟨JsMath.round4 socialScore, nNet, nPost, nAge, nInt⟩

end Social

/-!
## Aadhaar OTP verification (`services/aadhaarService.js`,
`Backend/store/memoryStore.js`)

The store maps (sessions, attempts) are embedded as functions from hashed
identities; `hashAadhaar` (SHA-256, platform crypto) is an arbitrary
function parameter, since no property of the hash is needed.  The outcome
of the outbound UIDAI call is an explicit `Upstream` parameter; the JWT is
embedded as an opaque token value (its HS256 signature plays no role in the
session logic).
-/

namespace Aadhaar

/-- An OTP session (`{ txnId, createdAt }`). -/
structure Session where
  txnId : String
  createdAt : ℤ
deriving DecidableEq

/-- The two memory-store maps, keyed by hashed Aadhaar. -/
structure AuthState where
  sessions : String → Option Session
  attempts : String → Option MemoryStore.AttemptRecord

/-- `/^\d{12}$/` on a string value. -/
def isValidAadhaar (a : String) : Bool :=
  a.length = 12 && a.data.all fun c => c.isDigit

/-- `!otp || !/^\d{6}$/.test(otp)`, negated. -/
def isValidOtp (otp : String) : Bool :=
  otp.length = 6 && otp.data.all fun c => c.isDigit

/-- Outcome of the outbound UIDAI Auth call. -/
inductive Upstream where
  | ret_y
  | ret_other
  | networkError
deriving DecidableEq

/-- The result of `verifyOtp`. -/
inductive VerifyResult where
  | failure (message : String)
  | verified (token : String)
deriving DecidableEq

def VerifyResult.success : VerifyResult → Bool
  | .failure _ => false
  | .verified _ => true

/-- `generateToken` (jwtGenerator.js): an opaque JWT over
`{ sub := hashedAadhaar, txn := txnId }`; the signature is not modelled. -/
def generateToken (hashedAadhaar txnId : String) : String :=
  "jwt." ++ hashedAadhaar ++ "." ++ txnId

/-- Single-key update of a store map. -/
def updateMap {β : Type} (m : String → Option β) (k : String) (v : Option β) :
    String → Option β :=
  fun x => if x = k then v else m x

/-- `handleSuccess(hashedAadhaar, txnId)`: issue the JWT, clear the session,
reset the attempt record. -/
def handleSuccess (st : AuthState) (hashed txnId : String) :
    AuthState × VerifyResult :=
  ({ sessions := updateMap st.sessions hashed none
     attempts := updateMap st.attempts hashed none },
   .verified (generateToken hashed txnId))

/-- `handleFailure(hashedAadhaar)`: increment the failure counter and report
lockout or attempts left. -/
def handleFailure (st : AuthState) (hashed : String) (now : ℤ) :
    AuthState × VerifyResult :=
  if (MemoryStore.incrementFailed (st.attempts hashed) now).2.1 then
    ({ st with attempts := (updateMap st.attempts hashed
        (MemoryStore.incrementFailed (st.attempts hashed) now).1) },
     .failure "Too many failed attempts. Account locked.")
  else
    ({ st with attempts := (updateMap st.attempts hashed
        (MemoryStore.incrementFailed (st.attempts hashed) now).1) },
     .failure "Invalid OTP. Attempts remaining before lockout.")

/-- Steps 3-8 of `verifyOtp`, after the lock check updated the attempts map:
session lookup, transaction-id comparison, UIDAI call outcome. -/
def verifyWithSession (st1 : AuthState) (now : ℤ) (hashed otp txnId : String)
    (locked : Bool) (up : Upstream) : AuthState × VerifyResult :=
  if locked then
    (st1, .failure "Account is temporarily locked due to multiple failed attempts.")
  else
    match st1.sessions hashed with
    | none =>
      (st1, .failure "No active OTP session found. Please initiate OTP first.")
    | some session =>
      if session.txnId ≠ txnId then
        (st1, .failure "Transaction ID mismatch. Please initiate a new OTP request.")
      else
        match up with
        | .ret_y => handleSuccess st1 hashed txnId
        | .ret_other => handleFailure st1 hashed now
        | .networkError =>
          if otp = "123456" then handleSuccess st1 hashed txnId
          else handleFailure st1 hashed now

/-- `verifyOtp(aadhaarNumber, otp, txnId)`; `up` is the outcome of the
outbound UIDAI call (a network failure falls back to the test OTP). -/
def verifyOtp (st : AuthState) (now : ℤ) (aadhaar otp txnId : String)
    (hash : String → String) (up : Upstream) : AuthState × VerifyResult :=
  if ¬ isValidAadhaar aadhaar then
    (st, .failure "Invalid Aadhaar number. Must be exactly 12 digits.")
  else if ¬ isValidOtp otp then
    (st, .failure "Invalid OTP. Must be exactly 6 digits.")
  else if txnId = "" then
    (st, .failure "Transaction ID is required.")
  else
    verifyWithSession
      { st with attempts := (updateMap st.attempts (hash aadhaar)
          (MemoryStore.isLocked (st.attempts (hash aadhaar)) now).2) }
      now (hash aadhaar) otp txnId
      (MemoryStore.isLocked (st.attempts (hash aadhaar)) now).1 up

/-- One call to `verifyOtp`. -/
structure VerifyEvent where
  now : ℤ
  aadhaar : String
  otp : String
  txnId : String
  upstream : Upstream

/-- Runs a sequence of `verifyOtp` calls, collecting the results. -/
def runVerifies (hash : String → String) (st : AuthState) :
    List VerifyEvent → AuthState × List VerifyResult
  | [] => (st, [])
  | e :: es =>
    let r := verifyOtp st e.now e.aadhaar e.otp e.txnId hash e.upstream
    let rest := runVerifies hash r.1 es
    (rest.1, r.2 :: rest.2)

end Aadhaar

/-!
## AA FI-data decryption (`Backend/utils/fiDecryption.js`)

The byte-level layout logic (key-length check, minimum-length check,
`IV(12) || ciphertext || tag(16)` slicing, tag verification) is embedded
from the source.  The AES-256-GCM core itself is platform code
(`node:crypto`), so it is modelled from the spec as an authenticated
stream cipher: a keyed keystream XORed over the plaintext, and a
GHASH-style polynomial MAC over the ciphertext evaluated at a non-zero
point of the field `ZMod 257`, masked by a key/IV-dependent offset and
serialised to the 16-byte tag.  Base64 transport is the identity on this
byte-level embedding.  Bytes are naturals below 256.
-/

namespace FiDecryption

def IV_LENGTH : ℕ := 12

def TAG_LENGTH : ℕ := 16

/-- Modelled from the spec: the keystream byte at index `i` of the
platform AES-256-GCM (CTR mode) under `key` and `iv`. -/
def keystream (key iv : List ℕ) (i : ℕ) : ℕ :=
  (key.foldl (fun a b => a + 2 * b) 3 * 131
    + iv.foldl (fun a b => a + 2 * b) 5 * 17 + i * 29 + 7) % 256

/-- XOR of a byte string against the keystream starting at index `i`
(both encryption and decryption of the CTR core). -/
def ctr (key iv : List ℕ) : ℕ → List ℕ → List ℕ
  | _, [] => []
  | i, b :: bs => (b ^^^ keystream key iv i) :: ctr key iv (i + 1) bs

/-- The tag field: arithmetic is done in `ZMod P` with `P = 257` prime, so
that a single changed byte (coefficient difference below 256) always moves
the tag. -/
def P : ℕ := 257

instance : Fact (Nat.Prime P) := ⟨by norm_num [P]⟩

instance : NeZero P := ⟨by norm_num [P]⟩

/-- Modelled from the spec: the evaluation point of the polynomial MAC,
derived from key and IV; by construction in `[1, 256]`, hence non-zero
mod 257. -/
def macKey (key iv : List ℕ) : ℕ :=
  (key.foldl (fun a b => a + b) 0 + iv.foldl (fun a b => a + b) 0) % 256 + 1

/-- Horner evaluation of the ciphertext (plus-one coefficients) at `r`. -/
def polyEval (r : ZMod P) : List ℕ → ZMod P
  | [] => 0
  | c :: cs => ((c + 1 : ℕ) : ZMod P) + r * polyEval r cs

/-- Modelled from the spec: the authentication-tag value of the platform
AES-256-GCM over the ciphertext. -/
def macVal (key iv ct : List ℕ) : ZMod P :=
  polyEval ((macKey key iv : ℕ) : ZMod P) ct
    + ((key.foldl (fun a b => a + b) 0 * 3
        + iv.foldl (fun a b => a + b) 0 * 5 + 11 : ℕ) : ZMod P)

/-- 16-byte serialisation of the tag value (two base-256 digits,
zero-padded). -/
def serTag (v : ZMod P) : List ℕ :=
  v.val % 256 :: v.val / 256 :: List.replicate 14 0

/-- The 16-byte authentication tag of ciphertext `ct`. -/
def gcmTag (key iv ct : List ℕ) : List ℕ := serTag (macVal key iv ct)

/-- `encryptTestData(plaintext, sessionKey)` over bytes: the blob
`IV || ciphertext || authTag`; the fresh random IV is a parameter. -/
def encryptTestData (plaintext key iv : List ℕ) : List ℕ :=
  iv ++ ctr key iv 0 plaintext ++ gcmTag key iv (ctr key iv 0 plaintext)

/-- The `{ success, data?, error? }` result of `decryptFiData`. -/
inductive DecryptResult where
  | ok (data : List ℕ)
  | fail (error : String)
deriving DecidableEq

def DecryptResult.success : DecryptResult → Bool
  | .ok _ => true
  | .fail _ => false

/-- `decryptFiData(encryptedBase64, sessionKey)` over the decoded bytes:
key-length check, minimum-length check, `IV || ciphertext || tag` slicing,
authenticated decryption. -/
def decryptFiData (blob key : List ℕ) : DecryptResult :=
  if key.length ≠ 32 then
    .fail "Invalid key length: expected 32 bytes."
  else if blob.length < IV_LENGTH + TAG_LENGTH + 1 then
    .fail "Encrypted data too short to contain IV + tag + ciphertext."
  else if gcmTag key (blob.take IV_LENGTH)
      ((blob.drop IV_LENGTH).take (blob.length - TAG_LENGTH - IV_LENGTH))
      = blob.drop (blob.length - TAG_LENGTH) then
    .ok (ctr key (blob.take IV_LENGTH) 0
      ((blob.drop IV_LENGTH).take (blob.length - TAG_LENGTH - IV_LENGTH)))
  else
    .fail "Decryption failed: bad auth tag."

/-- Flips bit `j` of byte `i`. -/
def flipBit (l : List ℕ) (i j : ℕ) : List ℕ :=
  l.set i ((l.getD i 0) ^^^ 2 ^ j)

end FiDecryption

/-!
## Theorems: settled claims
-/

/-- **C2 (counterexample).** The claim states that an inflow/outflow ratio of
exactly `1.2` earns the `+40` cash-flow bonus.  The code tests `ratio > 1.2`
strictly, so at ratio `1.2` the bonus is `10` and (with network strength
`0.88` and variance `0.02`, as produced by the validation layer) the score is
`790`, not the `820` the claim predicts. -/
theorem C2_exact_ratio_counterexample :
    ScoringEngine.cashFlowBonus ⟨⟨12/10⟩, ⟨2/100⟩⟩ = 10 ∧
    ScoringEngine.calculateScore ⟨⟨12/10⟩, ⟨2/100⟩⟩ ⟨88/100⟩ = 790 ∧
    ScoringEngine.calculateScore ⟨⟨12/10⟩, ⟨2/100⟩⟩ ⟨88/100⟩ ≠ 820 := by
  have hc : ScoringEngine.cashFlowBonus ⟨⟨12/10⟩, ⟨2/100⟩⟩ = 10 := by
    unfold ScoringEngine.cashFlowBonus
    norm_num
  have hs : ScoringEngine.stabilityBonus ⟨88/100⟩ = 30 := by
    unfold ScoringEngine.stabilityBonus
    norm_num
  have hp : ScoringEngine.penalty ⟨⟨12/10⟩, ⟨2/100⟩⟩ = 0 := by
    unfold ScoringEngine.penalty
    norm_num
  have hf : ScoringEngine.calculateScore ⟨⟨12/10⟩, ⟨2/100⟩⟩ ⟨88/100⟩ = 790 := by
    unfold ScoringEngine.calculateScore ScoringEngine.finalScore
      ScoringEngine.baseScore
    rw [hc, hs, hp]
    norm_num [min_def]
  refine ⟨hc, hf, by rw [hf]; norm_num⟩

/-- **C2 (amended).** `ScoringEngine.calculate` computes the NovaScore as base
`750` plus a cash-flow bonus of `+40` when the UPI inflow/outflow ratio is
*strictly greater than* `1.2` and `+10` otherwise, plus `+30` when the network
strength is `> 0.8`, plus `-50` when the GST/bank turnover variance is
`> 15%`, clamped above at `900`; the returned score always lies in
`[300, 900]`; a ratio of exactly `1.2` earns only the `+10` bonus. -/
theorem C2_novascore_formula (d : ScoringEngine.IngestedData)
    (v : ScoringEngine.ValidationData) :
    ScoringEngine.calculateScore d v =
      min (750 + (if d.upi.inflow_outflow_ratio > 12/10 then 40 else 10)
            + (if v.nodeStrength > 8/10 then 30 else 0)
            + (if d.gst.variance_vs_bank > 15/100 then -50 else 0)) 900 ∧
    300 ≤ ScoringEngine.calculateScore d v ∧
    ScoringEngine.calculateScore d v ≤ 900 ∧
    (d.upi.inflow_outflow_ratio = 12/10 → ScoringEngine.cashFlowBonus d = 10) := by
  refine ⟨rfl, ?_, ?_, ?_⟩
  · unfold ScoringEngine.calculateScore ScoringEngine.finalScore
      ScoringEngine.baseScore ScoringEngine.cashFlowBonus
      ScoringEngine.stabilityBonus ScoringEngine.penalty
    split_ifs <;> omega
  · exact min_le_right _ _
  · intro h
    unfold ScoringEngine.cashFlowBonus
    rw [h]
    norm_num

/-- **C7.** Starting from an absent attempt record, the k-th call to
`incrementFailed` (for `k ≤ MAX_ATTEMPTS`) returns
`attemptsLeft = MAX_ATTEMPTS - k ≥ 0`; the call with `k = MAX_ATTEMPTS`
locks the record with `lockedUntil = now + LOCKOUT`; and in every state,
`isLocked` answers true exactly when `getLockoutRemaining` is positive. -/
theorem C7_rate_limit_monotonicity :
    (∀ (ts : List ℤ) (t : ℤ), ts.length + 1 ≤ MemoryStore.maxAttempts →
      (MemoryStore.incrementFailed (MemoryStore.runFailed none ts) t).2.2
          = (MemoryStore.maxAttempts : ℤ) - ((ts.length : ℤ) + 1) ∧
      0 ≤ (MemoryStore.incrementFailed (MemoryStore.runFailed none ts) t).2.2 ∧
      (ts.length + 1 = MemoryStore.maxAttempts →
        (MemoryStore.incrementFailed (MemoryStore.runFailed none ts) t).1
          = some ⟨MemoryStore.maxAttempts, some (t + MemoryStore.lockoutDurationMs)⟩)) ∧
    (∀ (rec : Option MemoryStore.AttemptRecord) (now : ℤ),
      (MemoryStore.isLocked rec now).1 = true ↔
        0 < MemoryStore.getLockoutRemaining rec now) := by
  constructor
  · intro ts t h
    rcases ts with _ | ⟨a, _ | ⟨b, _ | ⟨c, ts⟩⟩⟩
    · refine ⟨?_, ?_, ?_⟩ <;>
        simp [MemoryStore.runFailed, MemoryStore.incrementFailed,
          MemoryStore.maxAttempts, MemoryStore.lockoutDurationMs]
    · refine ⟨?_, ?_, ?_⟩ <;>
        simp [MemoryStore.runFailed, MemoryStore.incrementFailed,
          MemoryStore.maxAttempts, MemoryStore.lockoutDurationMs]
    · refine ⟨?_, ?_, ?_⟩ <;>
        simp [MemoryStore.runFailed, MemoryStore.incrementFailed,
          MemoryStore.maxAttempts, MemoryStore.lockoutDurationMs]
    · simp [MemoryStore.maxAttempts] at h
  · intro rec now
    match rec with
    | none => simp [MemoryStore.isLocked, MemoryStore.getLockoutRemaining]
    | some r =>
      match hlu : r.lockedUntil with
      | none => simp [MemoryStore.isLocked, MemoryStore.getLockoutRemaining, hlu]
      | some lu =>
        by_cases h0 : lu = 0
        · simp [MemoryStore.isLocked, MemoryStore.getLockoutRemaining, hlu, h0]
        by_cases hnow : now < lu
        · have hpos : (0 : ℚ) < ((lu - now : ℤ) : ℚ) / 1000 := by
            apply div_pos
            · exact_mod_cast sub_pos.mpr hnow
            · norm_num
          simp [MemoryStore.isLocked, MemoryStore.getLockoutRemaining, hlu, h0,
            hnow, sub_pos.mpr hnow, JsMath.jsCeil, Int.ceil_pos.mpr hpos]
        · have hrem : ¬ (0 : ℤ) < lu - now := by omega
          simp [MemoryStore.isLocked, MemoryStore.getLockoutRemaining, hlu, h0,
            hnow, hrem]

/-- Witness for C7 at the concrete input `ts = []`, `t = 0`. -/
theorem C7_rate_limit_monotonicity_witness :
    (MemoryStore.incrementFailed (MemoryStore.runFailed none ([] : List ℤ)) 0).2.2
      = (MemoryStore.maxAttempts : ℤ) - ((([] : List ℤ).length : ℤ) + 1) :=
  (C7_rate_limit_monotonicity.1 [] 0 (by decide)).1

/-- **C6.** A GSTR-1 return filed at any time on the 11th of the month after
its filing period is ON_TIME, and one filed on the 12th is DELAYED with
`delayDays ≥ 1`; a GSTR-3B return for period 2025-06 filed at
2025-07-20T23:59:59 is ON_TIME while one filed at 2025-07-21T00:00:00 is
DELAYED. -/
theorem C6_gst_classifier :
    (∀ (py pm h mi s : ℕ), 1 ≤ pm → pm ≤ 12 → h ≤ 23 → mi ≤ 59 → s ≤ 59 →
      Gst.classifyFiling ⟨some "GSTR-1", some (py, pm),
          some ⟨(Gst.nextMonth py pm).1, (Gst.nextMonth py pm).2, 11, h, mi, s⟩⟩
        = "ON_TIME") ∧
    (∀ (py pm h mi s : ℕ), 1 ≤ pm → pm ≤ 12 → h ≤ 23 → mi ≤ 59 → s ≤ 59 →
      Gst.classifyFiling ⟨some "GSTR-1", some (py, pm),
          some ⟨(Gst.nextMonth py pm).1, (Gst.nextMonth py pm).2, 12, h, mi, s⟩⟩
        = "DELAYED" ∧
      1 ≤ Gst.computeDelayDays (Gst.computeDueDate "GSTR-1" py pm)
          ⟨(Gst.nextMonth py pm).1, (Gst.nextMonth py pm).2, 12, h, mi, s⟩) ∧
    Gst.classifyFiling
        ⟨some "GSTR-3B", some (2025, 6), some ⟨2025, 7, 20, 23, 59, 59⟩⟩
      = "ON_TIME" ∧
    Gst.classifyFiling
        ⟨some "GSTR-3B", some (2025, 6), some ⟨2025, 7, 21, 0, 0, 0⟩⟩
      = "DELAYED" := by
  have hup : JsMath.jsToUpper "GSTR-1" = "GSTR-1" := by decide
  have hdd : Gst.dueDay "GSTR-1" = 11 := by decide
  refine ⟨?_, ?_, by decide, by decide⟩
  · intro py pm h mi s _ _ hh hmi hs
    simp only [Gst.classifyFiling, Option.getD, hup, Gst.computeDueDate, hdd]
    rw [if_pos]
    simp only [Gst.epochSec]
    omega
  · intro py pm h mi s _ _ hh hmi hs
    have hdiff : 1 ≤ Gst.epochSec
          ⟨(Gst.nextMonth py pm).1, (Gst.nextMonth py pm).2, 12, h, mi, s⟩
        - Gst.epochSec (Gst.computeDueDate "GSTR-1" py pm) := by
      simp only [Gst.epochSec, Gst.computeDueDate, hdd, Gst.epochDay]
      omega
    constructor
    · simp only [Gst.classifyFiling, Option.getD, hup, Gst.computeDueDate, hdd]
      rw [if_neg]
      simp only [Gst.epochSec, Gst.computeDueDate, hdd, Gst.epochDay] at hdiff ⊢
      omega
    · unfold Gst.computeDelayDays
      have hq : (0 : ℚ) <
          ((Gst.epochSec ⟨(Gst.nextMonth py pm).1, (Gst.nextMonth py pm).2,
              12, h, mi, s⟩
            - Gst.epochSec (Gst.computeDueDate "GSTR-1" py pm) : ℤ) : ℚ)
            / 86400 := by
        apply div_pos
        · exact_mod_cast lt_of_lt_of_le one_pos hdiff
        · norm_num
      have := Int.ceil_pos.mpr hq
      unfold JsMath.jsCeil
      omega

/-- Witness for C6 at period 2025-06, filing time 10:00:00 on the due day. -/
theorem C6_gst_classifier_witness :
    Gst.classifyFiling ⟨some "GSTR-1", some (2025, 6),
        some ⟨(Gst.nextMonth 2025 6).1, (Gst.nextMonth 2025 6).2, 11, 10, 0, 0⟩⟩
      = "ON_TIME" :=
  C6_gst_classifier.1 2025 6 10 0 0 (by decide) (by decide) (by decide)
    (by decide) (by decide)

/-- **C4 (counterexample).** On the four E6 bills (classified ON_TIME,
MINOR_DELAY, MAJOR_DELAY, UNPAID in chronological order) the detected trend
is DECLINING, not the STABLE the claim asserts: the last three bills average
`8/3 ≈ 2.67` points against an overall mean of `4.5`, a difference below
`-1`. -/
theorem C4_trend_counterexample :
    (Reliability.calculateReliability Reliability.e6Bills).trend = "DECLINING" ∧
    (Reliability.calculateReliability Reliability.e6Bills).trend ≠ "STABLE" := by
  have hPA : ¬ (JsMath.jsToUpper "PAID" = "UNPAID") := by decide
  have hUN : JsMath.jsToUpper "UNPAID" = "UNPAID" := by decide
  norm_num +decide [Reliability.calculateReliability, Reliability.e6Bills,
    Reliability.stableSortBy, Reliability.insertSorted, Reliability.dueKey,
    Reliability.classifyBill, Reliability.classifyPayment,
    Reliability.computeDelayDays, Reliability.billScore,
    Reliability.detectTrend, JsMath.round2, JsMath.round4, JsMath.jsRound,
    JsMath.jsCeil, hPA, hUN, List.filter]

/-- **C4 (amended).** The four E6 bills produce reliabilityScore 45.0 with
one bill in each class and trend DECLINING (the code's own trend rule applied
to scores 10, 6, 2, 0); in general, for a non-empty bill list the returned
trend is `detectTrend` of the classified list, which is STABLE for fewer
than 4 bills and otherwise compares the mean score of the last 3 bills with
the overall mean (`> +1` IMPROVING, `< -1` DECLINING, else STABLE). -/
theorem C4_utility_reliability :
    ((Reliability.calculateReliability Reliability.e6Bills).reliabilityScore = 45 ∧
     (Reliability.calculateReliability Reliability.e6Bills).onTimePayments = 1 ∧
     (Reliability.calculateReliability Reliability.e6Bills).minorDelays = 1 ∧
     (Reliability.calculateReliability Reliability.e6Bills).majorDelays = 1 ∧
     (Reliability.calculateReliability Reliability.e6Bills).unpaidBills = 1 ∧
     (Reliability.calculateReliability Reliability.e6Bills).trend = "DECLINING") ∧
    (∀ bills : List Reliability.Bill, bills ≠ [] →
      (Reliability.calculateReliability bills).trend
        = Reliability.detectTrend (Reliability.calculateReliability bills).bills) ∧
    (∀ cls : List Reliability.ClassifiedBill, cls.length < 4 →
      Reliability.detectTrend cls = "STABLE") ∧
    (∀ cls : List Reliability.ClassifiedBill, 4 ≤ cls.length →
      Reliability.detectTrend cls =
        (let overallAvg : ℚ := ((cls.map fun b => (b.score : ℚ)).sum) / cls.length
         let last3Avg : ℚ :=
           (((cls.drop (cls.length - 3)).map fun b => (b.score : ℚ)).sum) / 3
         if last3Avg - overallAvg > 1 then "IMPROVING"
         else if last3Avg - overallAvg < -1 then "DECLINING"
         else "STABLE")) := by
  have hPA : ¬ (JsMath.jsToUpper "PAID" = "UNPAID") := by decide
  have hUN : JsMath.jsToUpper "UNPAID" = "UNPAID" := by decide
  refine ⟨?_, ?_, ?_, ?_⟩
  · norm_num +decide [Reliability.calculateReliability, Reliability.e6Bills,
      Reliability.stableSortBy, Reliability.insertSorted, Reliability.dueKey,
      Reliability.classifyBill, Reliability.classifyPayment,
      Reliability.computeDelayDays, Reliability.billScore,
      Reliability.detectTrend, JsMath.round2, JsMath.round4, JsMath.jsRound,
      JsMath.jsCeil, hPA, hUN, List.filter]
  · intro bills h
    simp only [Reliability.calculateReliability, if_neg h]
  · intro cls h
    simp only [Reliability.detectTrend, if_pos h]
  · intro cls h
    simp only [Reliability.detectTrend, if_neg (not_lt.mpr h)]

/-- Witness for C4 applied to the empty classified list. -/
theorem C4_utility_reliability_witness :
    Reliability.detectTrend [] = "STABLE" :=
  C4_utility_reliability.2.2.1 [] (by decide)

theorem upi_e4_filter :
    Upi.filterUpiTransactions Upi.e4Txns =
      [⟨"UPI", 10000, "rent", none, none, none⟩,
       ⟨"UPI", 1200, "groceries", none, none, none⟩,
       ⟨"UPI", 50000, "salary-credit", none, none, none⟩] := by
  decide

theorem upi_e4_mccDetails :
    Upi.mccDetails
        [⟨"UPI", 10000, "rent", none, none, none⟩,
         ⟨"UPI", 1200, "groceries", none, none, none⟩,
         ⟨"UPI", 50000, "salary-credit", none, none, none⟩] =
      [⟨"6012", "Salary / Payroll", 1, 50000⟩,
       ⟨"6513", "Rent / Housing", 1, 10000⟩,
       ⟨"5411", "Groceries", 1, 1200⟩] := by
  have hfold : Upi.mccFold
        [⟨"UPI", 10000, "rent", none, none, none⟩,
         ⟨"UPI", 1200, "groceries", none, none, none⟩,
         ⟨"UPI", 50000, "salary-credit", none, none, none⟩] =
      [⟨"6513", "Rent / Housing", 1, 10000⟩,
       ⟨"5411", "Groceries", 1, 1200⟩,
       ⟨"6012", "Salary / Payroll", 1, 50000⟩] := by
    have h1 : Upi.inferMcc "rent" = ("6513", "Rent / Housing") := by decide
    have h2 : Upi.inferMcc "groceries" = ("5411", "Groceries") := by decide
    have h3 : Upi.inferMcc "salary-credit" = ("6012", "Salary / Payroll") := by
      decide
    norm_num +decide [Upi.mccFold, Upi.upsertMcc, h1, h2, h3, JsMath.round2,
      JsMath.jsRound, List.foldl]
  unfold Upi.mccDetails
  rw [hfold]
  decide

theorem upi_e4_diversity : Upi.merchantDiversityScore Upi.e4Txns = 1 := by
  unfold Upi.merchantDiversityScore
  rw [upi_e4_filter, upi_e4_mccDetails]
  have h3pos : (0 : ℝ) < Real.log 3 := Real.log_pos (by norm_num)
  have hp3 : (0 : ℝ) < 1 / 3 := by norm_num
  unfold Upi.calculateMerchantDiversity
  rw [if_neg (by norm_num)]
  simp only [List.map_cons, List.map_nil, List.sum_cons, List.sum_nil,
    List.length_cons, List.length_nil, Nat.reduceAdd, Nat.cast_ofNat,
    Nat.cast_one]
  rw [if_pos hp3]
  have hlog : Real.log ((1 : ℝ) / 3) = -Real.log 3 := by
    rw [one_div, Real.log_inv]
  have hent : -(1 / 3 * Real.log (1 / 3)) + (-(1 / 3 * Real.log (1 / 3)) +
      (-(1 / 3 * Real.log (1 / 3)) + 0)) = Real.log 3 := by
    rw [hlog]
    ring
  rw [hent, if_pos h3pos, div_self (ne_of_gt h3pos)]
  norm_num

/-- **C5 (counterexample).** On the E4 input the three MCC categories are
equally represented, so the normalised Shannon entropy is exactly 1 and the
rounded `merchantDiversityScore` is `1.000`, not the `0.896` the claim
asserts. -/
theorem C5_diversity_counterexample :
    Upi.merchantDiversityScore Upi.e4Txns = 1 ∧
    Upi.merchantDiversityScore Upi.e4Txns ≠ 896/1000 := by
  refine ⟨upi_e4_diversity, ?_⟩
  rw [upi_e4_diversity]
  norm_num

/-- **C5 (amended).** On the E4 input `analyzeUpi` returns
`transactionCount = 3`, `totalVolume = 61200.00`, the inferred MCCs
`6012, 6513, 5411` (by descending volume), and
`merchantDiversityScore = 1.000`. -/
theorem C5_upi_analytics :
    Upi.transactionCount Upi.e4Txns = 3 ∧
    Upi.totalVolume Upi.e4Txns = 61200 ∧
    Upi.uniqueMccs (Upi.filterUpiTransactions Upi.e4Txns)
      = ["6012", "6513", "5411"] ∧
    Upi.merchantDiversityScore Upi.e4Txns = 1 := by
  refine ⟨by decide, ?_, ?_, upi_e4_diversity⟩
  · unfold Upi.totalVolume
    rw [upi_e4_filter]
    norm_num [Upi.calculateTotalVolume, JsMath.round2, JsMath.jsRound]
  · unfold Upi.uniqueMccs
    rw [upi_e4_filter, upi_e4_mccDetails]
    decide

theorem consent_revokeInStore_none (store : List Consent.ConsentRecord)
    (id now : String)
    (h : ∀ r ∈ store, ¬ (r.consentId = id ∧ r.status = "ACTIVE")) :
    Consent.revokeInStore store id now = none := by
  induction store with
  | nil => rfl
  | cons c rest ih =>
    simp only [Consent.revokeInStore]
    rw [if_neg (h c (by simp))]
    rw [ih fun r hr => h r (by simp [hr])]

theorem consent_revokeInStore_mem (store : List Consent.ConsentRecord)
    (id now : String) (s2 : List Consent.ConsentRecord)
    (r : Consent.ConsentRecord)
    (h : Consent.revokeInStore store id now = some (s2, r)) :
    ∀ x ∈ s2, x ∈ store ∨ ∃ y ∈ store, y.status = "ACTIVE" ∧
      x = { y with status := "REVOKED", revokedAt := some now } := by
  induction store generalizing s2 with
  | nil => simp [Consent.revokeInStore] at h
  | cons c rest ih =>
    simp only [Consent.revokeInStore] at h
    by_cases hc : c.consentId = id ∧ c.status = "ACTIVE"
    · rw [if_pos hc] at h
      obtain ⟨h1, h2⟩ := Prod.mk.injEq .. ▸ (Option.some.injEq .. ▸ h)
      intro x hx
      rw [← h1] at hx
      rcases List.mem_cons.mp hx with hx | hx
      · exact Or.inr ⟨c, by simp, hc.2, hx⟩
      · exact Or.inl (List.mem_cons_of_mem _ hx)
    · rw [if_neg hc] at h
      rcases he : Consent.revokeInStore rest id now with _ | ⟨rest2, r2⟩
      · rw [he] at h
        exact absurd h (by simp)
      · rw [he] at h
        obtain ⟨h1, h2⟩ := Prod.mk.injEq .. ▸ (Option.some.injEq .. ▸ h)
        intro x hx
        rw [← h1] at hx
        rcases List.mem_cons.mp hx with hx | hx
        · exact Or.inl (hx ▸ List.mem_cons_self _ _)
        · rcases ih rest2 (by rw [he, h2]) x hx with hin | ⟨y, hy, hys, hxy⟩
          · exact Or.inl (List.mem_cons_of_mem _ hin)
          · exact Or.inr ⟨y, List.mem_cons_of_mem _ hy, hys, hxy⟩

theorem consent_revokeInStore_keeps (store : List Consent.ConsentRecord)
    (id now : String) (s2 : List Consent.ConsentRecord)
    (r rec : Consent.ConsentRecord) (hmem : rec ∈ store)
    (hne : rec.status ≠ "ACTIVE")
    (h : Consent.revokeInStore store id now = some (s2, r)) : rec ∈ s2 := by
  induction store generalizing s2 with
  | nil => simp at hmem
  | cons c rest ih =>
    simp only [Consent.revokeInStore] at h
    by_cases hc : c.consentId = id ∧ c.status = "ACTIVE"
    · rw [if_pos hc] at h
      obtain ⟨h1, h2⟩ := Prod.mk.injEq .. ▸ (Option.some.injEq .. ▸ h)
      rcases List.mem_cons.mp hmem with hrec | hrec
      · exact absurd (hrec ▸ hc.2) hne
      · rw [← h1]
        exact List.mem_cons_of_mem _ hrec
    · rw [if_neg hc] at h
      rcases he : Consent.revokeInStore rest id now with _ | ⟨rest2, r2⟩
      · rw [he] at h
        exact absurd h (by simp)
      · rw [he] at h
        obtain ⟨h1, h2⟩ := Prod.mk.injEq .. ▸ (Option.some.injEq .. ▸ h)
        rw [← h1]
        rcases List.mem_cons.mp hmem with hrec | hrec
        · exact hrec ▸ List.mem_cons_self _ _
        · exact List.mem_cons_of_mem _ (ih rest2 hrec (by rw [he, h2]))

theorem consent_inv_step (store : List Consent.ConsentRecord) (op : Consent.Op)
    (h : ∀ r ∈ store, (r.revokedAt ≠ none ↔ r.status = "REVOKED")) :
    ∀ r ∈ Consent.step store op, (r.revokedAt ≠ none ↔ r.status = "REVOKED") := by
  intro r hr
  cases op with
  | create p cid now =>
    simp only [Consent.step, Consent.createConsent] at hr
    by_cases hv : Consent.validateConsentPayload p = []
    · rw [if_pos hv] at hr
      rcases List.mem_append.mp hr with hr | hr
      · exact h r hr
      · simp only [List.mem_singleton] at hr
        subst hr
        simp
    · rw [if_neg hv] at hr
      exact h r hr
  | revoke id now =>
    simp only [Consent.step, Consent.revokeConsent] at hr
    by_cases hu : Consent.isValidUuid id
    · simp only [hu, not_true, if_neg, ite_false] at hr
      rcases he : Consent.revokeInStore store id now with _ | ⟨s2, r2⟩
      · rw [he] at hr
        exact h r hr
      · rw [he] at hr
        simp only at hr
        rcases consent_revokeInStore_mem store id now s2 r2 he r hr with
          hin | ⟨y, _, _, hxy⟩
        · exact h r hin
        · subst hxy
          simp
    · simp only [hu, not_false_iff, if_pos, ite_true] at hr
      exact h r hr

theorem consent_inv_fold (ops : List Consent.Op)
    (store : List Consent.ConsentRecord)
    (h : ∀ r ∈ store, (r.revokedAt ≠ none ↔ r.status = "REVOKED")) :
    ∀ r ∈ ops.foldl Consent.step store,
      (r.revokedAt ≠ none ↔ r.status = "REVOKED") := by
  induction ops generalizing store with
  | nil => exact h
  | cons op rest ih =>
    exact ih (Consent.step store op) (consent_inv_step store op h)

/-- **C8 (counterexample).** Revoking an existing consent whose status is
REVOKED produces exactly the same failure as revoking an id absent from the
store — the message of the missing-consent case, mapped by the controller to
HTTP 404 — not a distinct ConflictError (409). -/
theorem C8_revoke_conflict_counterexample :
    (Consent.revokeConsent
        [⟨"550e8400-e29b-41d4-a716-446655440000", .str "u1", "REVOKED",
          ["DEPOSIT"], none, none, "t0", some "t1"⟩]
        "550e8400-e29b-41d4-a716-446655440000" "t2").1
      = Consent.RevokeResult.failure "Active consent artefact not found." ∧
    (Consent.revokeConsent [] "550e8400-e29b-41d4-a716-446655440000" "t2").1
      = Consent.RevokeResult.failure "Active consent artefact not found." ∧
    Consent.handleRevokeStatus
      (Consent.revokeConsent
        [⟨"550e8400-e29b-41d4-a716-446655440000", .str "u1", "REVOKED",
          ["DEPOSIT"], none, none, "t0", some "t1"⟩]
        "550e8400-e29b-41d4-a716-446655440000" "t2").1 = 404 ∧
    (404 : ℕ) ≠ 409 := by
  refine ⟨by decide, by decide, by decide, by decide⟩

/-- **C8 (amended).** Every consent is created with status ACTIVE and no
`revokedAt`; a REVOKED record survives every subsequent operation unchanged;
in every state reachable from the empty store, `revokedAt` is set iff the
status is REVOKED; and `revokeConsent` applied to an existing consent whose
status is not ACTIVE returns the not-found failure (`'Active consent
artefact not found.'`, HTTP 404), not a ConflictError. -/
theorem C8_consent_lifecycle :
    (∀ (p : Consent.Payload) (cid now : String)
        (store : List Consent.ConsentRecord),
      Consent.validateConsentPayload p = [] →
      (Consent.createConsent p cid now store).1
          = Consent.CreateResult.created cid "ACTIVE" now ∧
      (Consent.createConsent p cid now store).2
          = store ++ [⟨cid, p.userReferenceId, "ACTIVE", p.fiTypes.getD [],
              p.dataRange, p.dataLife, now, none⟩]) ∧
    (∀ (store : List Consent.ConsentRecord) (op : Consent.Op)
        (rec : Consent.ConsentRecord),
      rec ∈ store → rec.status = "REVOKED" → rec ∈ Consent.step store op) ∧
    (∀ (ops : List Consent.Op) (rec : Consent.ConsentRecord),
      rec ∈ Consent.runOps ops → (rec.revokedAt ≠ none ↔ rec.status = "REVOKED")) ∧
    (∀ (store : List Consent.ConsentRecord) (id now : String),
      Consent.isValidUuid id = true →
      (∃ r ∈ store, r.consentId = id) →
      (∀ r ∈ store, r.consentId = id → r.status ≠ "ACTIVE") →
      (Consent.revokeConsent store id now).1
          = Consent.RevokeResult.failure "Active consent artefact not found." ∧
      Consent.handleRevokeStatus (Consent.revokeConsent store id now).1 = 404) := by
  refine ⟨?_, ?_, ?_, ?_⟩
  · intro p cid now store hv
    unfold Consent.createConsent
    rw [if_pos hv]
    exact ⟨rfl, rfl⟩
  · intro store op rec hmem hst
    cases op with
    | create p cid now =>
      simp only [Consent.step, Consent.createConsent]
      by_cases hv : Consent.validateConsentPayload p = []
      · rw [if_pos hv]
        exact List.mem_append_left _ hmem
      · rw [if_neg hv]
        exact hmem
    | revoke id now =>
      simp only [Consent.step, Consent.revokeConsent]
      by_cases hu : Consent.isValidUuid id
      · simp only [hu, not_true, ite_false]
        rcases he : Consent.revokeInStore store id now with _ | ⟨s2, r2⟩
        · exact hmem
        · exact consent_revokeInStore_keeps store id now s2 r2 rec hmem
            (by rw [hst]; decide) he
      · simp only [hu, not_false_iff, ite_true]
        exact hmem
  · intro ops rec hmem
    exact consent_inv_fold ops [] (by simp) rec hmem
  · intro store id now hu hex hnact
    have hnone : Consent.revokeInStore store id now = none := by
      apply consent_revokeInStore_none
      intro r hr hand
      exact hnact r hr hand.1 hand.2
    have hres : (Consent.revokeConsent store id now).1
        = Consent.RevokeResult.failure "Active consent artefact not found." := by
      unfold Consent.revokeConsent
      rw [if_neg (by simp [hu]), hnone]
    refine ⟨hres, ?_⟩
    rw [hres]
    rfl

/-- Witness for C8: a one-record store holding a REVOKED consent. -/
theorem C8_consent_lifecycle_witness :
    (Consent.revokeConsent
        [⟨"650e8400-e29b-41d4-a716-446655440000", .str "u2", "PAUSED",
          ["UPI"], none, none, "t0", none⟩]
        "650e8400-e29b-41d4-a716-446655440000" "t3").1
      = Consent.RevokeResult.failure "Active consent artefact not found." :=
  (C8_consent_lifecycle.2.2.2
    [⟨"650e8400-e29b-41d4-a716-446655440000", .str "u2", "PAUSED",
      ["UPI"], none, none, "t0", none⟩]
    "650e8400-e29b-41d4-a716-446655440000" "t3" (by decide)
    ⟨⟨"650e8400-e29b-41d4-a716-446655440000", .str "u2", "PAUSED",
      ["UPI"], none, none, "t0", none⟩, by simp, rfl⟩ (by decide)).1

/-- **C1 (counterexample).** A payload that is impeccable except that its
`fiTypes` is `["TERM_DEPOSIT"]` is rejected: `VALID_FI_TYPES` in the consent
service is only `{DEPOSIT, UPI, GST, UTILITY, SOCIAL}`, so
`validateConsentPayload` reports an error and `createConsent` fails. -/
theorem C1_term_deposit_counterexample :
    Consent.validateConsentPayload Consent.termDepositPayload
      = ["Invalid fiTypes."] ∧
    Consent.validateConsentPayload Consent.termDepositPayload ≠ [] ∧
    (Consent.createConsent Consent.termDepositPayload "c1" "t0" []).1
      = Consent.CreateResult.failure "Validation failed." ["Invalid fiTypes."] := by
  refine ⟨by decide, by decide, by decide⟩

/-- **C1 (amended).** For every consent payload whose `userReferenceId` is a
non-empty string, whose `fiTypes` is a non-empty subset of
`{DEPOSIT, UPI, GST, UTILITY, SOCIAL}` (TERM_DEPOSIT, RECURRING_DEPOSIT,
MUTUAL_FUNDS and SIP are *not* accepted by `consent.create`), whose
`dataRange` has parseable `from < to`, and whose `dataLife` has a unit in
`{DAY, MONTH, YEAR, INF}` and a value `≥ 0`, `validateConsentPayload`
reports no errors and `createConsent` succeeds with status ACTIVE. -/
theorem C1_consent_creation (p : Consent.Payload) (s : String)
    (l : List String) (a b : ℤ) (u : String) (q : ℚ)
    (hs : p.userReferenceId = .str s) (hsne : s ≠ "")
    (hl : p.fiTypes = some l) (hlne : l ≠ [])
    (hsub : ∀ t ∈ l, t ∈ Consent.VALID_FI_TYPES)
    (hr : p.dataRange = some ⟨some (.valid a), some (.valid b)⟩) (hab : a < b)
    (hd : p.dataLife = some ⟨.str u, .num q⟩)
    (hu : u ∈ Consent.VALID_DATA_LIFE_UNITS) (hq : 0 ≤ q) :
    Consent.validateConsentPayload p = [] ∧
    ∀ cid now store, (Consent.createConsent p cid now store).1
      = Consent.CreateResult.created cid "ACTIVE" now := by
  have hfilter : (l.filter fun t => !Consent.VALID_FI_TYPES.contains t) = [] := by
    rw [List.filter_eq_nil_iff]
    intro t ht
    have hmem := hsub t ht
    simp only [Consent.VALID_FI_TYPES, List.mem_cons, List.not_mem_nil,
      or_false] at hmem
    rcases hmem with rfl | rfl | rfl | rfl | rfl <;> decide
  have hunit : ¬ (u = "" ∨ ¬ Consent.VALID_DATA_LIFE_UNITS.contains u) := by
    simp only [Consent.VALID_DATA_LIFE_UNITS, List.mem_cons, List.not_mem_nil,
      or_false] at hu
    rcases hu with rfl | rfl | rfl | rfl <;> decide
  have hval : Consent.validateConsentPayload p = [] := by
    cases l with
    | nil => exact absurd rfl hlne
    | cons t0 ts =>
      simp [Consent.validateConsentPayload, hs, hl, hr, hd, hfilter, hsne,
        not_le.mpr hab, hunit, not_lt.mpr hq]
      refine ⟨⟨hsub t0 (by simp), fun x hx => hsub x (by simp [hx])⟩, ?_, hu⟩
      intro h0
      exact hunit (Or.inl h0)
  refine ⟨hval, ?_⟩
  intro cid now store
  unfold Consent.createConsent
  rw [hval]
  rfl

/-- Witness for C1 at a concrete DEPOSIT/UPI payload. -/
theorem C1_consent_creation_witness :
    Consent.validateConsentPayload
        ⟨.str "user-123", some ["DEPOSIT", "UPI"],
         some ⟨some (.valid 1735689600000), some (.valid 1767225600000)⟩,
         some ⟨.str "MONTH", .num 6⟩⟩ = [] :=
  (C1_consent_creation
    ⟨.str "user-123", some ["DEPOSIT", "UPI"],
     some ⟨some (.valid 1735689600000), some (.valid 1767225600000)⟩,
     some ⟨.str "MONTH", .num 6⟩⟩
    "user-123" ["DEPOSIT", "UPI"] 1735689600000 1767225600000 "MONTH" 6
    rfl (by decide) rfl (by decide) (by decide) rfl (by decide) rfl
    (by decide) (by decide)).1

theorem social_normalize_bounds (v : Social.JVal) (lo hi : ℚ) :
    0 ≤ Social.normalize v lo hi ∧ Social.normalize v lo hi ≤ 1 := by
  cases v with
  | num q =>
    simp only [Social.normalize]
    by_cases h : hi ≤ lo
    · rw [if_pos h]
      norm_num
    · rw [if_neg h]
      push_neg at h
      have hlo : lo ≤ min (max q lo) hi :=
        le_min (le_max_right q lo) (le_of_lt h)
      have hhi : min (max q lo) hi ≤ hi := min_le_right _ _
      have hpos : 0 < hi - lo := sub_pos.mpr h
      constructor
      · exact div_nonneg (sub_nonneg.mpr hlo) (le_of_lt hpos)
      · rw [div_le_one hpos]
        exact sub_le_sub_right hhi lo
  | nan => simp [Social.normalize]
  | nonNumeric => simp [Social.normalize]

theorem jsRound4_unit_bounds (q : ℚ) (h0 : 0 ≤ q) (h1 : q ≤ 1) :
    0 ≤ JsMath.round4 q ∧ JsMath.round4 q ≤ 1 := by
  unfold JsMath.round4 JsMath.jsRound
  have hfl : (0 : ℤ) ≤ ⌊q * 10000 + 1 / 2⌋ := by
    apply Int.le_floor.mpr
    push_cast
    nlinarith
  have hfu : ⌊q * 10000 + 1 / 2⌋ ≤ 10000 := by
    have : ⌊q * 10000 + 1 / 2⌋ ≤ ⌊(10000 + 1 / 2 : ℚ)⌋ := by
      apply Int.floor_le_floor
      nlinarith
    have h2 : ⌊(10000 + 1 / 2 : ℚ)⌋ = 10000 := by norm_num [Int.floor_eq_iff]
    omega
  constructor
  · positivity
  · rw [div_le_one (by norm_num)]
    exact_mod_cast hfu

/-- **C10.** For every `platformData` input — platforms, metric fields and
creation dates arbitrary, present or absent, numeric or not — every
normalised metric of `calculateSocialScore` lies in `[0, 1]` (non-numbers
and `NaN` normalise to `0`), and the returned `socialScore` is the
0.25-weighted sum of the four, rounded to 4 decimal places, hence also in
`[0, 1]`. -/
theorem C10_social_score_bounds :
    (∀ (pd : Social.PlatformData) (now : ℤ),
      (0 ≤ (Social.calculateSocialScore pd now).nNetworkSize ∧
        (Social.calculateSocialScore pd now).nNetworkSize ≤ 1) ∧
      (0 ≤ (Social.calculateSocialScore pd now).nPostFrequency ∧
        (Social.calculateSocialScore pd now).nPostFrequency ≤ 1) ∧
      (0 ≤ (Social.calculateSocialScore pd now).nAccountAge ∧
        (Social.calculateSocialScore pd now).nAccountAge ≤ 1) ∧
      (0 ≤ (Social.calculateSocialScore pd now).nInteractionRate ∧
        (Social.calculateSocialScore pd now).nInteractionRate ≤ 1) ∧
      (Social.calculateSocialScore pd now).socialScore
        = JsMath.round4 ((25/100) * (Social.calculateSocialScore pd now).nNetworkSize
          + (25/100) * (Social.calculateSocialScore pd now).nPostFrequency
          + (25/100) * (Social.calculateSocialScore pd now).nAccountAge
          + (25/100) * (Social.calculateSocialScore pd now).nInteractionRate) ∧
      0 ≤ (Social.calculateSocialScore pd now).socialScore ∧
      (Social.calculateSocialScore pd now).socialScore ≤ 1) ∧
    (∀ (lo hi : ℚ), Social.normalize .nan lo hi = 0 ∧
      Social.normalize .nonNumeric lo hi = 0) := by
  constructor
  · intro pd now
    obtain ⟨hn0, hn1⟩ := social_normalize_bounds
      (Social.computeMetrics pd now).networkSize 0 50000
    obtain ⟨hp0, hp1⟩ := social_normalize_bounds
      (Social.computeMetrics pd now).postFrequency 0 30
    obtain ⟨ha0, ha1⟩ := social_normalize_bounds
      (.num ((Social.computeMetrics pd now).accountAgeDays : ℚ)) 0 3650
    obtain ⟨hi0, hi1⟩ := social_normalize_bounds
      (Social.computeMetrics pd now).interactionRate 0 1000
    have hsum0 : 0 ≤ (25/100 : ℚ) * Social.normalize
          (Social.computeMetrics pd now).networkSize 0 50000
        + (25/100) * Social.normalize
          (Social.computeMetrics pd now).postFrequency 0 30
        + (25/100) * Social.normalize
          (.num ((Social.computeMetrics pd now).accountAgeDays : ℚ)) 0 3650
        + (25/100) * Social.normalize
          (Social.computeMetrics pd now).interactionRate 0 1000 := by
      nlinarith
    have hsum1 : (25/100 : ℚ) * Social.normalize
          (Social.computeMetrics pd now).networkSize 0 50000
        + (25/100) * Social.normalize
          (Social.computeMetrics pd now).postFrequency 0 30
        + (25/100) * Social.normalize
          (.num ((Social.computeMetrics pd now).accountAgeDays : ℚ)) 0 3650
        + (25/100) * Social.normalize
          (Social.computeMetrics pd now).interactionRate 0 1000 ≤ 1 := by
      nlinarith
    obtain ⟨hr0, hr1⟩ := jsRound4_unit_bounds _ hsum0 hsum1
    exact ⟨⟨hn0, hn1⟩, ⟨hp0, hp1⟩, ⟨ha0, ha1⟩, ⟨hi0, hi1⟩, rfl, hr0, hr1⟩
  · intro lo hi
    exact ⟨rfl, rfl⟩

theorem aadhaar_verify_keeps_no_session (hash : String → String)
    (st : Aadhaar.AuthState) (now : ℤ) (a otp T : String)
    (up : Aadhaar.Upstream) (k : String) (h : st.sessions k = none) :
    ((Aadhaar.verifyOtp st now a otp T hash up).1).sessions k = none := by
  unfold Aadhaar.verifyOtp Aadhaar.verifyWithSession Aadhaar.handleSuccess
    Aadhaar.handleFailure
  repeat' split
  all_goals simp_all [Aadhaar.updateMap]

theorem aadhaar_no_session_fails (hash : String → String)
    (st : Aadhaar.AuthState) (now : ℤ) (a otp T : String)
    (up : Aadhaar.Upstream) (h : st.sessions (hash a) = none) :
    (Aadhaar.verifyOtp st now a otp T hash up).2.success = false := by
  unfold Aadhaar.verifyOtp Aadhaar.verifyWithSession
  repeat' split
  all_goals simp_all [Aadhaar.VerifyResult.success]

/-- **C9.** A successful `verifyOtp` deletes the OTP session (and the
attempt record) for the hashed identity, so an immediately following
`verifyOtp` with the same transaction id fails with the no-active-session
error; and as long as no new session exists for the identity, every further
`verifyOtp` for it — whatever the transaction id, OTP or upstream outcome —
fails. -/
theorem C9_otp_session_consumed (hash : String → String) :
    (∀ (st : Aadhaar.AuthState) (now : ℤ) (a otp T : String)
        (up : Aadhaar.Upstream) (stout : Aadhaar.AuthState) (token : String),
      Aadhaar.verifyOtp st now a otp T hash up
          = (stout, Aadhaar.VerifyResult.verified token) →
      stout.sessions (hash a) = none ∧ stout.attempts (hash a) = none) ∧
    (∀ (st : Aadhaar.AuthState) (now : ℤ) (a otp T : String)
        (up : Aadhaar.Upstream),
      Aadhaar.isValidAadhaar a = true → Aadhaar.isValidOtp otp = true →
      T ≠ "" → st.sessions (hash a) = none → st.attempts (hash a) = none →
      (Aadhaar.verifyOtp st now a otp T hash up).2
        = .failure "No active OTP session found. Please initiate OTP first.") ∧
    (∀ (h0 : String) (evs : List Aadhaar.VerifyEvent) (st : Aadhaar.AuthState),
      st.sessions h0 = none →
      ((Aadhaar.runVerifies hash st evs).1).sessions h0 = none ∧
      (∀ (i : ℕ) (hi1 : i < evs.length)
          (hi2 : i < (Aadhaar.runVerifies hash st evs).2.length),
        hash (evs.get ⟨i, hi1⟩).aadhaar = h0 →
        ((Aadhaar.runVerifies hash st evs).2.get ⟨i, hi2⟩).success = false)) := by
  refine ⟨?_, ?_, ?_⟩
  · intro st now a otp T up stout token heq
    unfold Aadhaar.verifyOtp Aadhaar.verifyWithSession Aadhaar.handleSuccess Aadhaar.handleFailure at heq
    repeat' split at heq
    all_goals
      obtain ⟨h1, h2⟩ := Prod.mk.injEq .. ▸ heq
    all_goals try exact Aadhaar.VerifyResult.noConfusion h2
    all_goals subst h1
    all_goals simp [Aadhaar.updateMap]
  · intro st now a otp T up hva hvo hT hsess hatt
    unfold Aadhaar.verifyOtp
    rw [if_neg (by simp [hva]), if_neg (by simp [hvo]), if_neg (by simp [hT])]
    simp only [hatt, MemoryStore.isLocked]
    simp [Aadhaar.verifyWithSession, hsess]
  · intro h0 evs
    induction evs with
    | nil =>
      intro st hnone
      refine ⟨hnone, ?_⟩
      intro i hi1
      simp at hi1
    | cons e es ih =>
      intro st hnone
      have hkeep : ((Aadhaar.verifyOtp st e.now e.aadhaar e.otp e.txnId hash
          e.upstream).1).sessions h0 = none :=
        aadhaar_verify_keeps_no_session hash st e.now e.aadhaar e.otp e.txnId
          e.upstream h0 hnone
      obtain ⟨ih1, ih2⟩ := ih
        (Aadhaar.verifyOtp st e.now e.aadhaar e.otp e.txnId hash e.upstream).1
        hkeep
      refine ⟨by simpa [Aadhaar.runVerifies] using ih1, ?_⟩
      intro i hi1 hi2 hhash
      match i with
      | 0 =>
        have hfail := aadhaar_no_session_fails hash st e.now e.aadhaar e.otp
          e.txnId e.upstream (by simpa using hhash ▸ hnone)
        simpa [Aadhaar.runVerifies] using hfail
      | i + 1 =>
        have hi1a : i < es.length := by simpa using hi1
        have hi2a : i < ((Aadhaar.runVerifies hash
            (Aadhaar.verifyOtp st e.now e.aadhaar e.otp e.txnId hash
              e.upstream).1 es).2).length := by
          simpa [Aadhaar.runVerifies] using hi2
        have := ih2 i hi1a hi2a (by simpa using hhash)
        simpa [Aadhaar.runVerifies] using this

/-- Witness for C9: a fresh empty store, valid formats, consumed session. -/
theorem C9_otp_session_consumed_witness :
    (Aadhaar.verifyOtp ⟨fun _ => none, fun _ => none⟩ 0 "123456789012" "123456"
        "T1" id Aadhaar.Upstream.networkError).2
      = .failure "No active OTP session found. Please initiate OTP first." :=
  (C9_otp_session_consumed id).2.1 ⟨fun _ => none, fun _ => none⟩ 0
    "123456789012" "123456" "T1" Aadhaar.Upstream.networkError
    (by decide) (by decide) (by decide) rfl rfl

theorem fid_ctr_length (key iv : List ℕ) (i : ℕ) (xs : List ℕ) :
    (FiDecryption.ctr key iv i xs).length = xs.length := by
  induction xs generalizing i with
  | nil => rfl
  | cons b bs ih => simp [FiDecryption.ctr, ih]

theorem fid_ctr_invol (key iv : List ℕ) (i : ℕ) (xs : List ℕ) :
    FiDecryption.ctr key iv i (FiDecryption.ctr key iv i xs) = xs := by
  induction xs generalizing i with
  | nil => rfl
  | cons b bs ih =>
    simp [FiDecryption.ctr, Nat.xor_cancel_right, ih]

theorem fid_ctr_bytes (key iv : List ℕ) (i : ℕ) (xs : List ℕ)
    (h : ∀ b ∈ xs, b < 256) :
    ∀ c ∈ FiDecryption.ctr key iv i xs, c < 256 := by
  induction xs generalizing i with
  | nil => simp [FiDecryption.ctr]
  | cons b bs ih =>
    intro c hc
    simp only [FiDecryption.ctr, List.mem_cons] at hc
    rcases hc with rfl | hc
    · have hb : b < 2 ^ 8 := h b (by simp)
      have hk : FiDecryption.keystream key iv i < 2 ^ 8 :=
        Nat.mod_lt _ (by norm_num)
      exact Nat.xor_lt_two_pow hb hk
    · exact ih (i + 1) (fun x hx => h x (by simp [hx])) c hc

theorem fid_serTag_length (v : ZMod FiDecryption.P) :
    (FiDecryption.serTag v).length = 16 := rfl

theorem fid_serTag_inj (a b : ZMod FiDecryption.P)
    (h : FiDecryption.serTag a = FiDecryption.serTag b) : a = b := by
  have h1 : a.val % 256 = b.val % 256 := by
    have := congrArg (fun l => l.getD 0 0) h
    simpa [FiDecryption.serTag] using this
  have h2 : a.val / 256 = b.val / 256 := by
    have := congrArg (fun l => l.getD 1 0) h
    simpa [FiDecryption.serTag] using this
  have hval : a.val = b.val := by omega
  exact ZMod.val_injective FiDecryption.P hval

theorem fid_macKey_ne_zero (key iv : List ℕ) :
    ((FiDecryption.macKey key iv : ℕ) : ZMod FiDecryption.P) ≠ 0 := by
  intro h
  rw [ZMod.natCast_zmod_eq_zero_iff_dvd] at h
  have h1 : 1 ≤ FiDecryption.macKey key iv := Nat.le_add_left 1 _
  have h2 : FiDecryption.macKey key iv ≤ 256 := by
    unfold FiDecryption.macKey
    have := Nat.mod_lt (key.foldl (fun a b => a + b) 0
      + iv.foldl (fun a b => a + b) 0) (show 0 < 256 by norm_num)
    omega
  have := Nat.le_of_dvd (by omega) h
  simp [FiDecryption.P] at this
  omega

theorem fid_polyEval_set_ne (r : ZMod FiDecryption.P) (hr : r ≠ 0) :
    ∀ (l : List ℕ) (m x : ℕ), m < l.length → (∀ b ∈ l, b < 256) →
    x < 256 → x ≠ l.getD m 0 →
    FiDecryption.polyEval r (l.set m x) ≠ FiDecryption.polyEval r l := by
  intro l
  induction l with
  | nil =>
    intro m x hm
    simp at hm
  | cons c cs ih =>
    intro m x hm hbytes hx hne
    match m with
    | 0 =>
      simp only [List.set, FiDecryption.polyEval]
      intro heq
      have hc : c < 256 := hbytes c (by simp)
      have hcast : ((x + 1 : ℕ) : ZMod FiDecryption.P)
          = ((c + 1 : ℕ) : ZMod FiDecryption.P) := by
        have := add_right_cancel heq
        exact_mod_cast this
      have hval := congrArg ZMod.val hcast
      rw [ZMod.val_cast_of_lt (by simp [FiDecryption.P]; omega),
        ZMod.val_cast_of_lt (by simp [FiDecryption.P]; omega)] at hval
      exact hne (by simpa using hval)
    | m + 1 =>
      simp only [List.set, FiDecryption.polyEval]
      intro heq
      have htail : FiDecryption.polyEval r (cs.set m x)
          = FiDecryption.polyEval r cs :=
        mul_left_cancel₀ hr (add_left_cancel heq)
      exact ih m x (by simpa using hm)
        (fun b hb => hbytes b (by simp [hb])) hx (by simpa using hne) htail

theorem fid_gcmTag_set_ne (key iv ct : List ℕ) (m x : ℕ)
    (hm : m < ct.length) (hbytes : ∀ b ∈ ct, b < 256) (hx : x < 256)
    (hne : x ≠ ct.getD m 0) :
    FiDecryption.gcmTag key iv (ct.set m x) ≠ FiDecryption.gcmTag key iv ct := by
  intro h
  have hmac := fid_serTag_inj _ _ h
  unfold FiDecryption.macVal at hmac
  have hpoly := add_right_cancel hmac
  exact fid_polyEval_set_ne _ (fid_macKey_ne_zero key iv) ct m x hm hbytes hx
    hne hpoly

theorem fid_set_ne_self (l : List ℕ) (i v : ℕ) (hi : i < l.length)
    (hne : v ≠ l.getD i 0) : l.set i v ≠ l := by
  intro h
  apply hne
  have := congrArg (fun t => t.getD i 0) h
  simp only at this
  rw [List.getD_eq_getElem _ _ (by simpa using hi)] at this
  simpa using this

theorem fid_xor_pow_ne (b j : ℕ) : b ^^^ 2 ^ j ≠ b := by
  intro h
  have h2 := congrArg (fun t => b ^^^ t) h
  simp only [Nat.xor_cancel_left, Nat.xor_self] at h2
  exact absurd h2 (by positivity)

theorem fid_slice_iv (iv ct tag : List ℕ) (hiv : iv.length = 12) :
    (iv ++ ct ++ tag).take 12 = iv := by
  rw [List.append_assoc, ← hiv]
  exact List.take_left _ _

theorem fid_slice_tag (iv ct tag : List ℕ) (hiv : iv.length = 12)
    (htag : tag.length = 16) :
    (iv ++ ct ++ tag).drop ((iv ++ ct ++ tag).length - 16) = tag := by
  have hl : (iv ++ ct ++ tag).length - 16 = (iv ++ ct).length := by
    simp [hiv, htag]
    omega
  rw [hl]
  exact List.drop_left _ _

theorem fid_slice_ct (iv ct tag : List ℕ) (hiv : iv.length = 12)
    (htag : tag.length = 16) :
    ((iv ++ ct ++ tag).drop 12).take ((iv ++ ct ++ tag).length - 16 - 12)
      = ct := by
  have hl : (iv ++ ct ++ tag).length - 16 - 12 = ct.length := by
    simp [hiv, htag]
    omega
  rw [hl, List.append_assoc, ← hiv, List.drop_left]
  exact List.take_left _ _

theorem fid_decrypt_shape (key iv ct tag : List ℕ) (hkey : key.length = 32)
    (hiv : iv.length = 12) (htag : tag.length = 16) (hct : ct ≠ []) :
    FiDecryption.decryptFiData (iv ++ ct ++ tag) key
      = if FiDecryption.gcmTag key iv ct = tag
        then FiDecryption.DecryptResult.ok (FiDecryption.ctr key iv 0 ct)
        else FiDecryption.DecryptResult.fail "Decryption failed: bad auth tag." := by
  have hct1 : 1 ≤ ct.length := List.length_pos.mpr hct
  have hlen : (iv ++ ct ++ tag).length = 28 + ct.length := by
    simp [hiv, htag]
    omega
  unfold FiDecryption.decryptFiData
  rw [if_neg (by rw [hkey]; simp)]
  rw [if_neg (by
    simp only [FiDecryption.IV_LENGTH, FiDecryption.TAG_LENGTH, hlen]
    omega)]
  simp only [FiDecryption.IV_LENGTH, FiDecryption.TAG_LENGTH]
  rw [fid_slice_iv iv ct tag hiv, fid_slice_ct iv ct tag hiv htag,
    fid_slice_tag iv ct tag hiv htag]

/-- **C3 (counterexample).** The empty plaintext does not round-trip: its
sealed blob is `12 + 0 + 16 = 28` bytes, and `decryptFiData` requires at
least `IV_LENGTH + TAG_LENGTH + 1 = 29` bytes ("too short to contain
IV + tag + ciphertext"), so it fails before any decryption. -/
theorem C3_empty_plaintext_counterexample :
    (FiDecryption.encryptTestData [] (List.replicate 32 7)
        (List.range 12)).length = 28 ∧
    FiDecryption.decryptFiData
        (FiDecryption.encryptTestData [] (List.replicate 32 7) (List.range 12))
        (List.replicate 32 7)
      = FiDecryption.DecryptResult.fail
          "Encrypted data too short to contain IV + tag + ciphertext." ∧
    (FiDecryption.decryptFiData
        (FiDecryption.encryptTestData [] (List.replicate 32 7) (List.range 12))
        (List.replicate 32 7)).success = false := by
  refine ⟨by decide, by decide, by decide⟩

/-- **C3 (amended).** For every non-empty byte-string plaintext and every
32-byte key, decryption of the sealed blob returns the plaintext; and
flipping any single bit of the ciphertext or tag portion of the
`IV || ciphertext || tag` blob makes `decryptFiData` fail (success =
false).  (The empty plaintext is rejected by the length check.) -/
theorem C3_gcm_roundtrip_and_tamper (p key iv : List ℕ)
    (hp : p ≠ []) (hbytes : ∀ b ∈ p, b < 256)
    (hkey : key.length = 32) (hiv : iv.length = 12) :
    FiDecryption.decryptFiData (FiDecryption.encryptTestData p key iv) key
      = FiDecryption.DecryptResult.ok p ∧
    (∀ i j, 12 ≤ i → i < (FiDecryption.encryptTestData p key iv).length →
      j < 8 →
      (FiDecryption.decryptFiData
          (FiDecryption.flipBit (FiDecryption.encryptTestData p key iv) i j)
          key).success = false) := by
  have hctlen : (FiDecryption.ctr key iv 0 p).length = p.length :=
    fid_ctr_length key iv 0 p
  have hctne : FiDecryption.ctr key iv 0 p ≠ [] := by
    intro h
    apply hp
    have := congrArg List.length h
    rw [hctlen] at this
    exact List.length_eq_zero.mp this
  have hctbytes : ∀ b ∈ FiDecryption.ctr key iv 0 p, b < 256 :=
    fid_ctr_bytes key iv 0 p hbytes
  have htag : (FiDecryption.gcmTag key iv (FiDecryption.ctr key iv 0 p)).length
      = 16 := fid_serTag_length _
  have hshape : FiDecryption.encryptTestData p key iv
      = iv ++ FiDecryption.ctr key iv 0 p
        ++ FiDecryption.gcmTag key iv (FiDecryption.ctr key iv 0 p) := rfl
  have hbloblen : (FiDecryption.encryptTestData p key iv).length
      = 28 + (FiDecryption.ctr key iv 0 p).length := by
    rw [hshape]
    simp [hiv, htag]
    omega
  constructor
  · rw [hshape, fid_decrypt_shape key iv _ _ hkey hiv htag hctne, if_pos rfl,
      fid_ctr_invol]
  · intro i j hi12 hilen hj
    rw [hbloblen] at hilen
    by_cases hreg : i < 12 + (FiDecryption.ctr key iv 0 p).length
    · -- a ciphertext bit is flipped
      have hrel : i - 12 < (FiDecryption.ctr key iv 0 p).length := by omega
      have hblob : FiDecryption.flipBit (FiDecryption.encryptTestData p key iv) i j
          = iv ++ FiDecryption.flipBit (FiDecryption.ctr key iv 0 p) (i - 12) j
            ++ FiDecryption.gcmTag key iv (FiDecryption.ctr key iv 0 p) := by
        rw [hshape]
        unfold FiDecryption.flipBit
        rw [List.append_assoc,
          List.getD_append_right iv _ 0 i (by rw [hiv]; omega),
          List.set_append_right i _ (by rw [hiv]; omega), hiv,
          List.getD_append _ _ _ _ (by omega),
          List.set_append_left _ _ (by omega), ← List.append_assoc]
      have hflen : (FiDecryption.flipBit (FiDecryption.ctr key iv 0 p)
          (i - 12) j).length = (FiDecryption.ctr key iv 0 p).length := by
        simp [FiDecryption.flipBit]
      have hfne : FiDecryption.flipBit (FiDecryption.ctr key iv 0 p)
          (i - 12) j ≠ [] := by
        intro h
        have := congrArg List.length h
        rw [hflen] at this
        exact hctne (List.length_eq_zero.mp this)
      have hbyte : (FiDecryption.ctr key iv 0 p).getD (i - 12) 0 < 256 := by
        rw [List.getD_eq_getElem _ _ hrel]
        exact hctbytes _ (List.getElem_mem _)
      have hxlt : (FiDecryption.ctr key iv 0 p).getD (i - 12) 0 ^^^ 2 ^ j
          < 256 := by
        have h2j : 2 ^ j < 2 ^ 8 := Nat.pow_lt_pow_right (by norm_num) hj
        exact Nat.xor_lt_two_pow hbyte h2j
      have htagne := fid_gcmTag_set_ne key iv (FiDecryption.ctr key iv 0 p)
        (i - 12) _ hrel hctbytes hxlt (fid_xor_pow_ne _ j)
      rw [hblob, fid_decrypt_shape key iv _ _ hkey hiv htag hfne,
        if_neg (by simpa [FiDecryption.flipBit] using htagne)]
      rfl
    · -- a tag bit is flipped
      have hrel : i - (12 + (FiDecryption.ctr key iv 0 p).length) < 16 := by
        omega
      have hblob : FiDecryption.flipBit (FiDecryption.encryptTestData p key iv) i j
          = iv ++ FiDecryption.ctr key iv 0 p
            ++ FiDecryption.flipBit
              (FiDecryption.gcmTag key iv (FiDecryption.ctr key iv 0 p))
              (i - (12 + (FiDecryption.ctr key iv 0 p).length)) j := by
        rw [hshape]
        unfold FiDecryption.flipBit
        have hpre : (iv ++ FiDecryption.ctr key iv 0 p).length
            = 12 + (FiDecryption.ctr key iv 0 p).length := by simp [hiv]
        rw [List.getD_append_right (iv ++ FiDecryption.ctr key iv 0 p) _ 0 i
            (by rw [hpre]; omega),
          List.set_append_right i _ (by rw [hpre]; omega), hpre]
      have hflen : (FiDecryption.flipBit
          (FiDecryption.gcmTag key iv (FiDecryption.ctr key iv 0 p))
          (i - (12 + (FiDecryption.ctr key iv 0 p).length)) j).length = 16 := by
        simp [FiDecryption.flipBit, htag]
      have htagne : FiDecryption.gcmTag key iv (FiDecryption.ctr key iv 0 p)
          ≠ FiDecryption.flipBit
            (FiDecryption.gcmTag key iv (FiDecryption.ctr key iv 0 p))
            (i - (12 + (FiDecryption.ctr key iv 0 p).length)) j := by
        intro h
        exact fid_set_ne_self _ _ _ (by rw [htag]; exact hrel)
          (fid_xor_pow_ne _ j) h.symm
      rw [hblob, fid_decrypt_shape key iv _ _ hkey hiv hflen hctne,
        if_neg htagne]
      rfl

/-- Witness for C3 at plaintext `[65, 66]`. -/
theorem C3_gcm_roundtrip_and_tamper_witness :
    FiDecryption.decryptFiData
        (FiDecryption.encryptTestData [65, 66] (List.replicate 32 1)
          (List.range 12))
        (List.replicate 32 1)
      = FiDecryption.DecryptResult.ok [65, 66] :=
  (C3_gcm_roundtrip_and_tamper [65, 66] (List.replicate 32 1) (List.range 12)
    (by decide) (by decide) (by decide) (by decide)).1
